import Mathlib

/-!
# ASL-Robot: verification of the motion-dispatch core

Shallow embedding of the ASL-Robot pipeline core (`src/io/motion_io.py`,
`src/io/fileIO.py`, `src/io/db_io.py`) and proofs about it.

Conventions of the embedding:
* Python `None`-able values become `Option`.
* Wall-clock time is measured in ticks of 0.01 s (the dispatch loop's polling
  period), so the 8 s ACK timeout is `800`, the 5 s reconnect interval `500`,
  the 0.05 s post-write settle `5`.
* The serial environment (which bytes arrive, whether a write throws) is an
  explicit environment value supplied to each step.
-/

namespace ASLRobot

/-! ## Arm router (`motion_io.get_arms_for_script`) -/

/-- `LEFT_ARM_KEYS` from `motion_io.py`: joint-group codes of the left arm. -/
def LEFT_ARM_KEYS : List String := ["L", "LW", "LE", "LS"]

/-- `RIGHT_ARM_KEYS` from `motion_io.py`: joint-group codes of the right arm. -/
def RIGHT_ARM_KEYS : List String := ["R", "RW", "RE", "RS"]

/-- One element of a `keyframes` sequence: either a Python dict (we only need
its key set, in iteration order) or any non-dict value (skipped by the
router's `isinstance(frame, dict)` check). -/
inductive Frame where
  | dict (keys : List String)
  | nonDict
deriving DecidableEq, Repr

/-- The value stored under the `"keyframes"` key of a motion script:
a JSON array, a JSON object (the router iterates its values), or any other
value (string, number, ...), which the router treats as malformed. -/
inductive KeyframesVal where
  | arr (frames : List Frame)
  | obj (entries : List (String × Frame))
  | other
deriving DecidableEq, Repr

/-- A motion script as the dispatch engine sees it: the `"token"` entry and
the `"keyframes"` entry, each possibly absent. -/
structure Script where
  token : Option String
  keyframes : Option KeyframesVal
deriving DecidableEq, Repr

/-- Inner loop of `get_arms_for_script`: fold one frame into the
`(send_to_left, send_to_right)` flags. Non-dict frames are skipped
(`continue`); for a dict frame every key is tested against the two key sets. -/
def scanFrame (acc : Bool × Bool) (frame : Frame) : Bool × Bool :=
  match frame with
  | .nonDict => acc
  | .dict keys =>
    keys.foldl (fun a key =>
      (a.1 || decide (key ∈ LEFT_ARM_KEYS), a.2 || decide (key ∈ RIGHT_ARM_KEYS))) acc

/-- Body of `get_arms_for_script` once a frame list is in hand: empty list
means the falsy-`keyframes` fallback fired; if after the scan neither flag is
set, fall back to `(True, True)` as well. -/
def scanAll (frames : List Frame) : Bool × Bool :=
  if frames.isEmpty then (true, true)
  else
    let p := frames.foldl scanFrame (false, false)
    if !p.1 && !p.2 then (true, true) else p

/-- `motion_io.get_arms_for_script`: which controller(s) need this command.
`None` keyframes, a non-list/dict value, an empty list/dict, or a scan that
finds no recognized arm key all yield the `(True, True)` fail-safe. -/
def get_arms_for_script (script : Script) : Bool × Bool :=
  match script.keyframes with
  | none => (true, true)
  | some .other => (true, true)
  | some (.arr frames) => scanAll frames
  | some (.obj entries) => scanAll (entries.map Prod.snd)

/-- The frame list `get_arms_for_script` iterates over, when the
`keyframes` value is a list or dict (`none` when missing or of wrong type). -/
def scriptFrames (s : Script) : Option (List Frame) :=
  match s.keyframes with
  | none => none
  | some .other => none
  | some (.arr fs) => some fs
  | some (.obj es) => some (es.map Prod.snd)

/-- The keyframe `f` contains some joint-group code from `keys`. -/
def frameHasKey (keys : List String) : Frame → Prop
  | .dict ks => ∃ k ∈ ks, k ∈ keys
  | .nonDict => False

instance (keys : List String) : (f : Frame) → Decidable (frameHasKey keys f)
  | .dict ks => List.decidableBEx _ ks
  | .nonDict => isFalse (fun h => h)

theorem frameHasKey_nonDict (keys : List String) :
    frameHasKey keys Frame.nonDict ↔ False := Iff.rfl

theorem frameHasKey_dict (keys ks : List String) :
    frameHasKey keys (Frame.dict ks) ↔ ∃ k ∈ ks, k ∈ keys := Iff.rfl

/-- Some keyframe of `frames` contains a code from `keys`. -/
def framesHaveKey (keys : List String) (frames : List Frame) : Prop :=
  ∃ f ∈ frames, frameHasKey keys f

instance (keys : List String) (frames : List Frame) :
    Decidable (framesHaveKey keys frames) :=
  List.decidableBEx _ frames

theorem framesHaveKey_cons (keys : List String) (f : Frame) (fs : List Frame) :
    framesHaveKey keys (f :: fs) ↔ frameHasKey keys f ∨ framesHaveKey keys fs := by
  simp [framesHaveKey]

theorem decide_framesHaveKey_cons (keys : List String) (f : Frame) (fs : List Frame) :
    decide (framesHaveKey keys (f :: fs))
      = (decide (frameHasKey keys f) || decide (framesHaveKey keys fs)) := by
  simp [framesHaveKey_cons keys f fs]

theorem scanKeys_fold (ks : List String) (a : Bool × Bool) :
    ks.foldl (fun a key =>
        (a.1 || decide (key ∈ LEFT_ARM_KEYS), a.2 || decide (key ∈ RIGHT_ARM_KEYS))) a
      = (a.1 || decide (∃ k ∈ ks, k ∈ LEFT_ARM_KEYS),
         a.2 || decide (∃ k ∈ ks, k ∈ RIGHT_ARM_KEYS)) := by
  induction ks generalizing a with
  | nil => simp
  | cons k ks ih =>
    rw [List.foldl_cons, ih]
    simp [Bool.or_assoc]

theorem scanFrame_fold (frames : List Frame) (a : Bool × Bool) :
    frames.foldl scanFrame a
      = (a.1 || decide (framesHaveKey LEFT_ARM_KEYS frames),
         a.2 || decide (framesHaveKey RIGHT_ARM_KEYS frames)) := by
  induction frames generalizing a with
  | nil => simp [framesHaveKey]
  | cons f fs ih =>
    rw [List.foldl_cons, ih, decide_framesHaveKey_cons, decide_framesHaveKey_cons]
    cases f with
    | nonDict =>
      simp [scanFrame, frameHasKey_nonDict]
    | dict ks =>
      rw [show scanFrame a (.dict ks)
            = ks.foldl (fun a key =>
                (a.1 || decide (key ∈ LEFT_ARM_KEYS),
                 a.2 || decide (key ∈ RIGHT_ARM_KEYS))) a from rfl,
          scanKeys_fold]
      simp [frameHasKey_dict, Bool.or_assoc]

/-- C1: `get_arms_for_script` selects the LEFT channel iff some keyframe
contains a LEFT joint-group code (`L`, `LW`, `LE`, `LS`), and symmetrically
for RIGHT; when keyframes are missing, of unexpected type, empty, or contain
no recognized arm code in any frame, it returns `(true, true)`, routing the
program to both channels. -/
theorem arm_router_spec (s : Script) :
    get_arms_for_script s =
      match scriptFrames s with
      | none => (true, true)
      | some frames =>
        if framesHaveKey LEFT_ARM_KEYS frames ∨ framesHaveKey RIGHT_ARM_KEYS frames then
          (decide (framesHaveKey LEFT_ARM_KEYS frames),
           decide (framesHaveKey RIGHT_ARM_KEYS frames))
        else (true, true) := by
  obtain ⟨tok, kf⟩ := s
  have main : ∀ frames : List Frame,
      scanAll frames =
        if framesHaveKey LEFT_ARM_KEYS frames ∨ framesHaveKey RIGHT_ARM_KEYS frames then
          (decide (framesHaveKey LEFT_ARM_KEYS frames),
           decide (framesHaveKey RIGHT_ARM_KEYS frames))
        else (true, true) := by
    intro frames
    cases frames with
    | nil => simp [scanAll, framesHaveKey]
    | cons f fs =>
      unfold scanAll
      simp only [List.isEmpty_cons, scanFrame_fold, Bool.false_or, if_false]
      by_cases hL : framesHaveKey LEFT_ARM_KEYS (f :: fs) <;>
        by_cases hR : framesHaveKey RIGHT_ARM_KEYS (f :: fs) <;>
          simp [hL, hR]
  cases kf with
  | none => rfl
  | some kv =>
    cases kv with
    | other => rfl
    | arr frames => exact main frames
    | obj entries => exact main (entries.map Prod.snd)

/-! ## Serial-handle validity (`motion_io.is_serial_valid`) -/

/-- A pyserial `Serial` object as seen by validity checks: its `is_open`
attribute and the value its `writable()` method would return if it were
called. -/
structure SerialHandle where
  is_open : Bool
  writableResult : Bool
deriving DecidableEq, Repr

/-- The Python expression `ser.writable` (note: no parentheses, so no call)
evaluates to the bound-method object, which is always truthy, whatever
`ser.writable()` would have returned. -/
def writable_attr_truthy (_ser : SerialHandle) : Bool := true

/-- `motion_io.is_serial_valid`: `None` is invalid; otherwise the result of
`ser.is_open and ser.writable` under Python truthiness. -/
def is_serial_valid (ser : Option SerialHandle) : Bool :=
  match ser with
  | none => false
  | some s => s.is_open && writable_attr_truthy s

/-- C10: `is_serial_valid` returns `true` for every non-`None` handle whose
`is_open` attribute is truthy, regardless of actual writability: the
`ser.writable` conjunct references the method object without calling it, so
it is always truthy and the `writableResult` field never affects the
outcome. -/
theorem is_serial_valid_ignores_writable (s : SerialHandle) :
    is_serial_valid (some s) = s.is_open := by
  cases s
  simp [is_serial_valid, writable_attr_truthy]

/-! ## Time constants (ticks of 0.01 s, the wait loop's polling period) -/

/-- `ACK_TIMEOUT = 8.0` s. -/
def ACK_TIMEOUT : Nat := 800

/-- `reconnect_interval = 5.0` s. -/
def RECONNECT_INTERVAL : Nat := 500

/-- `time.sleep(0.05)` after a successful write. -/
def POST_WRITE_SETTLE : Nat := 5

/-- `FINGERSPELL_POST_DELAY = 0.03` s. -/
def FINGERSPELL_POST_DELAY : Nat := 3

/-- `SIGN_POST_DELAY = 0.15` s. -/
def SIGN_POST_DELAY : Nat := 15

/-! ## The ACK wait loop of `motion_io.wait_ack_then_send` -/

/-- One iteration's view of the environment inside the ACK wait loop:
whether the shared shutdown flag is set when the `while` condition is
re-evaluated, whether draining this channel's inbound bytes yields an `ACK`
line, whether draining the other channel's inbound bytes yields an `ACK`
line, and the value of `time.time() - wait_start` (in ticks) at this
iteration's timeout check. -/
structure WaitStep where
  shutdown : Bool
  ackArrives : Bool
  otherAckArrives : Bool
  elapsed : Nat
deriving DecidableEq, Repr

/-- How the ACK wait phase of `wait_ack_then_send` finished. -/
inductive WaitOutcome where
  | noWait
  | ackReceived
  | timedOut
  | shutdownSeen
  | starved
deriving DecidableEq, Repr

/-- Loop exit record: outcome, `time.time() - wait_start` at exit, the local
ACK event, the other channel's ACK event, and `pending_ref[0]` at exit.
`starved` models a trace that ends with the loop still running (the Python
loop would simply not have returned yet); its exit data is the state so far. -/
structure WaitExit where
  outcome : WaitOutcome
  exitElapsed : Nat
  ackEvent : Bool
  otherAckEvent : Bool
  pending : Bool
deriving DecidableEq, Repr

/-- The `while pending_ref[0] and not file_io.shutdown.is_set():` loop of
`wait_ack_then_send`. `otherValid` records whether the other channel's
handle passes `is_serial_valid` (if not, its drain is a no-op). -/
def ack_wait_loop (otherValid : Bool) (steps : List WaitStep)
    (ev otherEv : Bool) : WaitExit :=
  match steps with
  | [] => ⟨.starved, 0, ev, otherEv, true⟩
  | s :: rest =>
    if s.shutdown then ⟨.shutdownSeen, s.elapsed, ev, otherEv, true⟩
    else
      let ev' := ev || s.ackArrives
      let otherEv' := otherEv || (otherValid && s.otherAckArrives)
      if ev' then ⟨.ackReceived, s.elapsed, false, otherEv', false⟩
      else if ACK_TIMEOUT < s.elapsed then ⟨.timedOut, s.elapsed, false, otherEv', false⟩
      else ack_wait_loop otherValid rest ev' otherEv'

/-- Environment of one `wait_ack_then_send` call: the wait-loop trace, the
shutdown flag at the post-loop check, whether `ser.write`/`ser.flush`
succeed, and whether the short post-write drain sees an `ACK` line. -/
structure SendEnv where
  steps : List WaitStep
  shutdownAfterWait : Bool
  writeOk : Bool
  drainAck : Bool
deriving DecidableEq, Repr

/-- Observable result of one `wait_ack_then_send` call. `sent` and
`connection_lost` are the Python return pair; the rest records the channel
state it leaves behind and what happened (`pendingAfterWait` is
`pending_ref[0]` right after the wait loop, before any write). -/
structure SendOut where
  sent : Bool
  connection_lost : Bool
  pending : Bool
  pendingAfterWait : Bool
  ackEvent : Bool
  otherAckEvent : Bool
  closedHandle : Bool
  outcome : WaitOutcome
  loggedTimeout : Bool
  attemptedWrite : Bool
  writeTime : Option Nat
  finishTime : Nat
deriving DecidableEq, Repr

/-- `motion_io.wait_ack_then_send`: if the handle is invalid, return
`(False, False)` untouched; else wait out a pending ACK (loop above); if the
shutdown flag is set (or the trace starved) return `(False, False)`; else
write the payload — on success set `pending_ref[0]` and drain once, on
`SerialException`/`OSError` print the error, close the handle and return
`(False, True)`. `hasTimeoutMsg` records whether a `timeout_msg` was passed
(the rest-position sends pass `None`). -/
def wait_ack_then_send (serValid otherValid : Bool) (pending ackEv otherEv : Bool)
    (hasTimeoutMsg : Bool) (callTime : Nat) (env : SendEnv) : SendOut :=
  if !serValid then
    ⟨false, false, pending, pending, ackEv, otherEv, false, .noWait, false, false, none, callTime⟩
  else
    let w : WaitExit :=
      if pending then ack_wait_loop otherValid env.steps ackEv otherEv
      else ⟨.noWait, 0, ackEv, otherEv, pending⟩
    let t1 := callTime + w.exitElapsed
    let logged := hasTimeoutMsg && decide (w.outcome = .timedOut)
    if w.outcome = .shutdownSeen || w.outcome = .starved || env.shutdownAfterWait then
      ⟨false, false, w.pending, w.pending, w.ackEvent, w.otherAckEvent, false, w.outcome,
        logged, false, none, t1⟩
    else if env.writeOk then
      ⟨true, false, true, w.pending, w.ackEvent || env.drainAck, w.otherAckEvent, false,
        w.outcome, logged, true, some t1, t1 + POST_WRITE_SETTLE⟩
    else
      ⟨false, true, w.pending, w.pending, w.ackEvent, w.otherAckEvent, true, w.outcome,
        logged, true, none, t1⟩

theorem ack_wait_loop_resolves (otherValid : Bool) (steps : List WaitStep)
    (ev otherEv : Bool)
    (hshut : ∀ s ∈ steps, s.shutdown = false)
    (hadeq : ∃ s ∈ steps, ACK_TIMEOUT < s.elapsed) :
    ((ack_wait_loop otherValid steps ev otherEv).outcome = .ackReceived ∨
      (ack_wait_loop otherValid steps ev otherEv).outcome = .timedOut) ∧
    (ack_wait_loop otherValid steps ev otherEv).pending = false := by
  induction steps generalizing ev otherEv with
  | nil => simp at hadeq
  | cons s rest ih =>
    have hs : s.shutdown = false := hshut s (List.mem_cons_self s rest)
    rw [ack_wait_loop, hs]
    simp only [Bool.false_eq_true, if_false]
    by_cases hev : (ev || s.ackArrives) = true
    · simp [hev]
    · rw [Bool.not_eq_true] at hev
      rw [hev]
      simp only [Bool.false_eq_true, if_false]
      by_cases hto : ACK_TIMEOUT < s.elapsed
      · simp [hto]
      · rw [if_neg hto]
        refine ih _ _ (fun x hx => hshut x (List.mem_cons_of_mem s hx)) ?_
        obtain ⟨x, hx, hlt⟩ := hadeq
        rcases List.mem_cons.mp hx with h | h
        · exact absurd (h ▸ hlt) hto
        · exact ⟨x, h, hlt⟩

/-- C2 counterexample: the claim quantifies over *every* call with the
pending flag set and shutdown unset, but a call on a channel whose serial
handle is `None` (or closed) returns at the `is_serial_valid` guard: the
pending flag is cleared by neither an ACK nor the timeout, and the payload is
never written — even with an environment in which time passes the 8 s bound
and no shutdown occurs. -/
theorem ack_clear_claim_fails_without_valid_handle :
    (wait_ack_then_send false true true false false true 0
        ⟨[⟨false, false, false, 801⟩], false, true, false⟩).pending = true ∧
    (wait_ack_then_send false true true false false true 0
        ⟨[⟨false, false, false, 801⟩], false, true, false⟩).attemptedWrite = false ∧
    (wait_ack_then_send false true true false false true 0
        ⟨[⟨false, false, false, 801⟩], false, true, false⟩).outcome ≠ .ackReceived ∧
    (wait_ack_then_send false true true false false true 0
        ⟨[⟨false, false, false, 801⟩], false, true, false⟩).outcome ≠ .timedOut := by
  refine ⟨rfl, rfl, ?_, ?_⟩ <;> decide

/-- C2 (amended with the handle-validity precondition): for every call of
`wait_ack_then_send` on a channel whose serial handle is valid and whose
pending flag is set, with the shutdown flag unset throughout the call and an
environment trace in which wall time eventually exceeds the 8 s bound, the
pending flag is cleared by exactly one of {the ACK event firing, the timeout
elapsing} — never both — and in either case the function then proceeds to
write the new payload. -/
theorem ack_flag_cleared_exactly_once_then_send
    (otherValid pending ackEv otherEv hasMsg : Bool) (callTime : Nat) (env : SendEnv)
    (hpend : pending = true)
    (hshut1 : ∀ s ∈ env.steps, s.shutdown = false)
    (hshut2 : env.shutdownAfterWait = false)
    (hadeq : ∃ s ∈ env.steps, ACK_TIMEOUT < s.elapsed) :
    ((wait_ack_then_send true otherValid pending ackEv otherEv hasMsg callTime env).outcome
        = .ackReceived ∨
      (wait_ack_then_send true otherValid pending ackEv otherEv hasMsg callTime env).outcome
        = .timedOut) ∧
    ¬((wait_ack_then_send true otherValid pending ackEv otherEv hasMsg callTime env).outcome
        = .ackReceived ∧
      (wait_ack_then_send true otherValid pending ackEv otherEv hasMsg callTime env).outcome
        = .timedOut) ∧
    (wait_ack_then_send true otherValid pending ackEv otherEv hasMsg callTime env).pendingAfterWait
        = false ∧
    (wait_ack_then_send true otherValid pending ackEv otherEv hasMsg callTime env).attemptedWrite
        = true := by
  subst hpend
  obtain ⟨hout, hpend'⟩ := ack_wait_loop_resolves otherValid env.steps ackEv otherEv hshut1 hadeq
  have h1 : (ack_wait_loop otherValid env.steps ackEv otherEv).outcome
      ≠ WaitOutcome.shutdownSeen := by
    rcases hout with h | h <;> rw [h] <;> exact fun hc => WaitOutcome.noConfusion hc
  have h2 : (ack_wait_loop otherValid env.steps ackEv otherEv).outcome
      ≠ WaitOutcome.starved := by
    rcases hout with h | h <;> rw [h] <;> exact fun hc => WaitOutcome.noConfusion hc
  have hone : ¬((ack_wait_loop otherValid env.steps ackEv otherEv).outcome
        = WaitOutcome.ackReceived ∧
      (ack_wait_loop otherValid env.steps ackEv otherEv).outcome = WaitOutcome.timedOut) := by
    rintro ⟨ha, hb⟩
    rw [ha] at hb
    exact WaitOutcome.noConfusion hb
  have hcond :
      (decide ((ack_wait_loop otherValid env.steps ackEv otherEv).outcome
          = WaitOutcome.shutdownSeen) ||
        decide ((ack_wait_loop otherValid env.steps ackEv otherEv).outcome
          = WaitOutcome.starved) ||
        env.shutdownAfterWait) = false := by
    simp [h1, h2, hshut2]
  rw [wait_ack_then_send]
  simp only [Bool.not_true, Bool.false_eq_true, if_false, if_true, hcond]
  by_cases hw : env.writeOk = true
  · rw [if_pos hw]
    exact ⟨hout, hone, hpend', rfl⟩
  · rw [if_neg hw]
    exact ⟨hout, hone, hpend', rfl⟩

/-- Witness for the amended C2 theorem: a concrete call (valid handle,
pending set, ACK arriving at the first poll, trace reaching past the
timeout bound, no shutdown) on which all hypotheses hold. -/
theorem ack_flag_cleared_exactly_once_then_send_witness :
    ((wait_ack_then_send true true true false false true 7
        ⟨[⟨false, true, false, 0⟩, ⟨false, false, false, 9000⟩], false, true, false⟩).outcome
        = .ackReceived ∨
      (wait_ack_then_send true true true false false true 7
        ⟨[⟨false, true, false, 0⟩, ⟨false, false, false, 9000⟩], false, true, false⟩).outcome
        = .timedOut) ∧
    ¬((wait_ack_then_send true true true false false true 7
        ⟨[⟨false, true, false, 0⟩, ⟨false, false, false, 9000⟩], false, true, false⟩).outcome
        = .ackReceived ∧
      (wait_ack_then_send true true true false false true 7
        ⟨[⟨false, true, false, 0⟩, ⟨false, false, false, 9000⟩], false, true, false⟩).outcome
        = .timedOut) ∧
    (wait_ack_then_send true true true false false true 7
        ⟨[⟨false, true, false, 0⟩, ⟨false, false, false, 9000⟩], false, true, false⟩).pendingAfterWait
        = false ∧
    (wait_ack_then_send true true true false false true 7
        ⟨[⟨false, true, false, 0⟩, ⟨false, false, false, 9000⟩], false, true, false⟩).attemptedWrite
        = true :=
  ack_flag_cleared_exactly_once_then_send true true false false true 7
    ⟨[⟨false, true, false, 0⟩, ⟨false, false, false, 9000⟩], false, true, false⟩
    rfl (by decide) rfl (by decide)

/-! ## Pipeline queues and wake events (`fileIO.FileIOManager`) -/

/-- `FileIOManager.__init__`: the four pipeline FIFO queues and their wake
events. (Note: `__init__` creates no `shutdown` event, although `motion_io`
and `main` reference `file_io.shutdown`; the shutdown flag is therefore kept
outside this structure, as an environment observation, in the dispatch
models below.) -/
structure FileIOManager where
  stt_emotion_queue : List String
  stt_line_queue : List String
  asl_token_queue : List String
  motion_queue : List Script
  stt_emotion_signal : Bool
  stt_new_signal : Bool
  asl_new_signal : Bool
  motion_new_signal : Bool
deriving DecidableEq, Repr

/-- `push_stt_line`: append the line to both STT queues and set both wake
events. -/
def push_stt_line (line : String) (m : FileIOManager) : FileIOManager :=
  { m with
    stt_line_queue := m.stt_line_queue ++ [line],
    stt_emotion_queue := m.stt_emotion_queue ++ [line],
    stt_new_signal := true,
    stt_emotion_signal := true }

/-- `pop_stt_emotion_line`: `Queue.get()` blocks on an empty queue (modelled
as `none`); otherwise remove the head and clear the wake event iff the queue
is now empty. -/
def pop_stt_emotion_line (m : FileIOManager) : Option (String × FileIOManager) :=
  match m.stt_emotion_queue with
  | [] => none
  | line :: rest =>
    some (line, { m with
      stt_emotion_queue := rest,
      stt_emotion_signal := if rest.isEmpty then false else m.stt_emotion_signal })

/-- `pop_stt_line`. -/
def pop_stt_line (m : FileIOManager) : Option (String × FileIOManager) :=
  match m.stt_line_queue with
  | [] => none
  | line :: rest =>
    some (line, { m with
      stt_line_queue := rest,
      stt_new_signal := if rest.isEmpty then false else m.stt_new_signal })

/-- `push_asl_token`. -/
def push_asl_token (token : String) (m : FileIOManager) : FileIOManager :=
  { m with
    asl_token_queue := m.asl_token_queue ++ [token],
    asl_new_signal := true }

/-- `pop_asl_token`. -/
def pop_asl_token (m : FileIOManager) : Option (String × FileIOManager) :=
  match m.asl_token_queue with
  | [] => none
  | token :: rest =>
    some (token, { m with
      asl_token_queue := rest,
      asl_new_signal := if rest.isEmpty then false else m.asl_new_signal })

/-- `push_motion_script`. -/
def push_motion_script (ms : Script) (m : FileIOManager) : FileIOManager :=
  { m with
    motion_queue := m.motion_queue ++ [ms],
    motion_new_signal := true }

/-- `pop_motion_script`. -/
def pop_motion_script (m : FileIOManager) : Option (Script × FileIOManager) :=
  match m.motion_queue with
  | [] => none
  | ms :: rest =>
    some (ms, { m with
      motion_queue := rest,
      motion_new_signal := if rest.isEmpty then false else m.motion_new_signal })

/-- C7: for every pipeline queue in `FileIOManager`, the associated wake
event is set on every push; a pop removes the head and clears the event
exactly when the pop leaves that queue empty (leaving it untouched — hence
set — otherwise); and pushing to an empty queue immediately unblocks one
waiting pop, which receives the pushed item. -/
theorem queue_signal_discipline (m : FileIOManager) (line tok : String) (ms : Script) :
    ((push_stt_line line m).stt_new_signal = true ∧
     (push_stt_line line m).stt_emotion_signal = true ∧
     (push_asl_token tok m).asl_new_signal = true ∧
     (push_motion_script ms m).motion_new_signal = true) ∧
    (∀ x rest, m.stt_line_queue = x :: rest →
       pop_stt_line m = some (x, { m with
         stt_line_queue := rest,
         stt_new_signal := if rest.isEmpty then false else m.stt_new_signal })) ∧
    (∀ x rest, m.stt_emotion_queue = x :: rest →
       pop_stt_emotion_line m = some (x, { m with
         stt_emotion_queue := rest,
         stt_emotion_signal := if rest.isEmpty then false else m.stt_emotion_signal })) ∧
    (∀ x rest, m.asl_token_queue = x :: rest →
       pop_asl_token m = some (x, { m with
         asl_token_queue := rest,
         asl_new_signal := if rest.isEmpty then false else m.asl_new_signal })) ∧
    (∀ x rest, m.motion_queue = x :: rest →
       pop_motion_script m = some (x, { m with
         motion_queue := rest,
         motion_new_signal := if rest.isEmpty then false else m.motion_new_signal })) ∧
    (m.stt_line_queue = [] →
       pop_stt_line m = none ∧
       ∃ m', pop_stt_line (push_stt_line line m) = some (line, m')) ∧
    (m.asl_token_queue = [] →
       pop_asl_token m = none ∧
       ∃ m', pop_asl_token (push_asl_token tok m) = some (tok, m')) ∧
    (m.motion_queue = [] →
       pop_motion_script m = none ∧
       ∃ m', pop_motion_script (push_motion_script ms m) = some (ms, m')) := by
  refine ⟨⟨rfl, rfl, rfl, rfl⟩, ?_, ?_, ?_, ?_, ?_, ?_, ?_⟩
  · intro x rest h
    simp [pop_stt_line, h]
  · intro x rest h
    simp [pop_stt_emotion_line, h]
  · intro x rest h
    simp [pop_asl_token, h]
  · intro x rest h
    simp [pop_motion_script, h]
  · intro h
    refine ⟨by simp [pop_stt_line, h], ⟨{ m with
        stt_line_queue := [],
        stt_emotion_queue := m.stt_emotion_queue ++ [line],
        stt_new_signal := false,
        stt_emotion_signal := true }, ?_⟩⟩
    simp [pop_stt_line, push_stt_line, h]
  · intro h
    refine ⟨by simp [pop_asl_token, h], ⟨{ m with
        asl_token_queue := [],
        asl_new_signal := false }, ?_⟩⟩
    simp [pop_asl_token, push_asl_token, h]
  · intro h
    refine ⟨by simp [pop_motion_script, h], ⟨{ m with
        motion_queue := [],
        motion_new_signal := false }, ?_⟩⟩
    simp [pop_motion_script, push_motion_script, h]

/-- An empty pipeline manager, as built by `FileIOManager()`. -/
def mgr0 : FileIOManager := ⟨[], [], [], [], false, false, false, false⟩

/-- A manager holding exactly one motion script. -/
def mgr1 : FileIOManager :=
  ⟨[], [], [], [⟨some "HELLO", none⟩], false, false, false, true⟩

/-- Witness for C7: the pop/unblock clauses applied at a concrete manager. -/
theorem queue_signal_discipline_witness :
    pop_motion_script mgr1
      = some (⟨some "HELLO", none⟩, { mgr1 with
          motion_queue := [],
          motion_new_signal := if ([] : List Script).isEmpty then false
                               else mgr1.motion_new_signal }) ∧
    (pop_motion_script mgr0 = none ∧
     ∃ m', pop_motion_script (push_motion_script ⟨some "HI", none⟩ mgr0)
       = some (⟨some "HI", none⟩, m')) :=
  ⟨(queue_signal_discipline mgr1 "l" "t" ⟨some "HI", none⟩).2.2.2.2.1
      ⟨some "HELLO", none⟩ [] rfl,
   (queue_signal_discipline mgr0 "l" "t" ⟨some "HI", none⟩).2.2.2.2.2.2.2 rfl⟩

/-! ## Token → motion lookup (`db_io`) -/

/-- `db_io.FINGERSPELL_CACHE`: the module-level cache used by
`run_database`. Every letter is mapped to `None` ("will fill with motion
scripts for letters when hardware for hand supports signs"). Note that
`run_database` uses this dict, not the partially populated one in
`src/cache/fingerspelling_cache.py`, which it does not import. -/
def FINGERSPELL_CACHE : List (String × Option Script) :=
  [("A", none), ("B", none), ("C", none), ("D", none), ("E", none), ("F", none),
   ("G", none), ("H", none), ("I", none), ("J", none), ("K", none), ("L", none),
   ("M", none), ("N", none), ("O", none), ("P", none), ("Q", none), ("R", none),
   ("S", none), ("T", none), ("U", none), ("V", none), ("W", none), ("X", none),
   ("Y", none), ("Z", none)]

/-- `FINGERSPELL_CACHE.get(letter.upper())`: Python `dict.get` yields `None`
both for a missing key and for a key stored with value `None`. -/
def cacheGet (letter : Char) : Option Script :=
  match FINGERSPELL_CACHE.lookup (String.singleton letter.toUpper) with
  | some v => v
  | none => none

/-- Per-letter body of the fingerspelling fallback loop of `run_database`:
skip non-alphabetic characters, uppercase, look the letter up in the cache;
a hit is pushed to the motion queue, a miss is recorded as a printed
skipped-letter warning (carrying the uppercased letter, since `letter` was
reassigned before the lookup). -/
def fingerspellStep (acc : FileIOManager × List Char) (letter : Char) :
    FileIOManager × List Char :=
  if !letter.isAlpha then acc
  else
    match cacheGet letter with
    | some ls => (push_motion_script ls acc.1, acc.2)
    | none => (acc.1, acc.2 ++ [letter.toUpper])

/-- Per-token body of `run_database`'s inner loop: try the sign store
(`get_sign_by_token`, an external MongoDB lookup, modelled as the function
argument `g`); on a hit push that MotionProgram; otherwise run the
fingerspelling fallback over the token's characters in order. Returns the
updated manager and the list of letters for which the skipped-letter
diagnostic was logged. -/
def process_token (g : String → Option Script) (token : String)
    (m : FileIOManager) : FileIOManager × List Char :=
  match g token with
  | some sign => (push_motion_script sign m, [])
  | none => token.data.foldl fingerspellStep (m, [])

/-- Stated from the claim: the per-letter MotionPrograms the fallback should
queue, in order — for each alphabetic character, the cache entry for its
uppercased form when that entry is non-null. -/
def spec_letterMotions (cs : List Char) : List Script :=
  cs.filterMap (fun c => if c.isAlpha then cacheGet c else none)

/-- Stated from the claim: the alphabetic letters (uppercased) with no
available motion, for each of which one diagnostic is logged. -/
def spec_skippedLetters (cs : List Char) : List Char :=
  (cs.filter (fun c => c.isAlpha && (cacheGet c).isNone)).map Char.toUpper

theorem fingerspell_fold (cs : List Char) (m : FileIOManager) (ws : List Char) :
    cs.foldl fingerspellStep (m, ws) =
      ({ m with
          motion_queue := m.motion_queue ++ spec_letterMotions cs,
          motion_new_signal :=
            if (spec_letterMotions cs).isEmpty then m.motion_new_signal else true },
        ws ++ spec_skippedLetters cs) := by
  induction cs generalizing m ws with
  | nil => simp [spec_letterMotions, spec_skippedLetters]
  | cons c cs ih =>
    rw [List.foldl_cons]
    by_cases ha : c.isAlpha
    · cases hj : cacheGet c with
      | some ls =>
        rw [show fingerspellStep (m, ws) c = (push_motion_script ls m, ws) by
              rw [fingerspellStep, if_neg (by simp [ha]), hj]]
        rw [ih]
        simp [push_motion_script, spec_letterMotions, spec_skippedLetters, ha, hj,
          List.filterMap_cons, List.append_assoc]
      | none =>
        rw [show fingerspellStep (m, ws) c = (m, ws ++ [c.toUpper]) by
              rw [fingerspellStep, if_neg (by simp [ha]), hj]]
        rw [ih]
        simp [spec_letterMotions, spec_skippedLetters, ha, hj,
          List.filterMap_cons, List.append_assoc]
    · rw [Bool.not_eq_true] at ha
      rw [show fingerspellStep (m, ws) c = (m, ws) by
            rw [fingerspellStep, if_pos (by simp [ha])]]
      rw [ih]
      simp [spec_letterMotions, spec_skippedLetters, ha]

/-- C9: for every token popped from the ASL token queue, if the sign store
holds a sign for the token, exactly that MotionProgram is pushed to the
motion queue (and nothing else happens); otherwise, for each alphabetic
character of the token in order, the per-letter MotionProgram is pushed iff
the fingerspelling cache holds a non-null entry for the uppercased letter,
and one skipped-letter diagnostic is logged for each alphabetic letter with
no available motion. In particular, for token `"XQ"` absent from the store,
zero MotionPrograms are queued and exactly the two diagnostics `X`, `Q` are
logged. -/
theorem token_lookup_fallback_spec (g : String → Option Script) (token : String)
    (m : FileIOManager) :
    (∀ p, g token = some p →
        process_token g token m = (push_motion_script p m, [])) ∧
    (g token = none →
        process_token g token m =
          ({ m with
              motion_queue := m.motion_queue ++ spec_letterMotions token.data,
              motion_new_signal :=
                if (spec_letterMotions token.data).isEmpty then m.motion_new_signal
                else true },
            spec_skippedLetters token.data)) ∧
    (g "XQ" = none →
        (process_token g "XQ" m).1.motion_queue = m.motion_queue ∧
        (process_token g "XQ" m).2 = ['X', 'Q']) := by
  refine ⟨?_, ?_, ?_⟩
  · intro p hp
    simp [process_token, hp]
  · intro hn
    rw [process_token, hn, fingerspell_fold]
    simp
  · intro hn
    rw [show (process_token g "XQ" m) = "XQ".data.foldl fingerspellStep (m, []) by
          rw [process_token, hn], fingerspell_fold]
    constructor
    · show m.motion_queue ++ spec_letterMotions "XQ".data = m.motion_queue
      rw [show spec_letterMotions "XQ".data = [] from rfl, List.append_nil]
    · show [] ++ spec_skippedLetters "XQ".data = ['X', 'Q']
      rfl

/-- Witness for C9: the `"XQ"` scenario at a concrete empty sign store and
empty manager: nothing is queued, two diagnostics are logged. -/
theorem token_lookup_fallback_spec_witness :
    (process_token (fun _ => none) "XQ" mgr0).1.motion_queue = mgr0.motion_queue ∧
    (process_token (fun _ => none) "XQ" mgr0).2 = ['X', 'Q'] :=
  (token_lookup_fallback_spec (fun _ => none) "XQ" mgr0).2.2 rfl

/-! ## The dispatch engine (`motion_io.run_motion`), one queue item -/

/-- The two serial channels. -/
inductive Chan where
  | left | right
deriving DecidableEq, Repr

/-- What a `wait_ack_then_send` call carries: a rest script or the motion
payload popped from the queue. -/
inductive PayloadKind where
  | rest | motion
deriving DecidableEq, Repr

/-- `last_active_arm` values other than `None`. -/
inductive Arm where
  | both | left | right
deriving DecidableEq, Repr

/-- Observable events of one engine step, in program order. `sendCall`
marks entry into `wait_ack_then_send` (the ACK-gated send path) for the
given payload; `wrote` carries the tick at which the payload bytes went
out. -/
inductive Ev where
  | logSendingTo (token target : String)
  | sendCall (ch : Chan) (k : PayloadKind)
  | logAckTimeout (ch : Chan)
  | wrote (ch : Chan) (k : PayloadKind) (t : Nat)
  | logSendError (ch : Chan)
  | closed (ch : Chan)
  | logRestSent (ch : Chan)
  | logExecSent (ch : Chan)
  | reconnectAttempt (ch : Chan) (t : Nat)
deriving DecidableEq, Repr

/-- The engine's mutable state across iterations of `run_motion`'s loop. -/
structure MState where
  serLeft : Option SerialHandle
  serRight : Option SerialHandle
  pendingLeft : Bool
  pendingRight : Bool
  ackLeft : Bool
  ackRight : Bool
  lastActiveArm : Option Arm
  lastReconnectLeft : Nat
  lastReconnectRight : Nat
deriving DecidableEq, Repr

/-- Environment of one engine step: `time.time()` as captured at line 211,
one `SendEnv` per potential `wait_ack_then_send` call, the results
`connect_serial` would produce if a reconnect is attempted, and the
queue-emptiness observation used for the pacing delay. -/
structure StepEnv where
  currentTime : Nat
  restEnv : SendEnv
  leftEnv : SendEnv
  rightEnv : SendEnv
  reconnectLeft : Option SerialHandle
  reconnectRight : Option SerialHandle
  queueNonEmptyAfter : Bool
deriving DecidableEq, Repr

/-- Lines 207–208: if `script["keyframes"]` is a dict, replace it by the
list of its values before serialization and routing. -/
def normalizeScript (s : Script) : Script :=
  match s.keyframes with
  | some (.obj es) => { s with keyframes := some (.arr (es.map Prod.snd)) }
  | _ => s

/-- Lines 219–226: the currently active arm set, derived from the router. -/
def currentActiveArm (script : Script) : Option Arm :=
  let lr := get_arms_for_script (normalizeScript script)
  if lr.1 && lr.2 then some .both
  else if lr.1 then some .left
  else if lr.2 then some .right
  else none

/-- Line 215: the target tag of the routing log line. -/
def targetOf (script : Script) : String :=
  let lr := get_arms_for_script (normalizeScript script)
  if lr.1 && lr.2 then "BOTH" else if lr.1 then "LEFT" else "RIGHT"

/-- The log lines and observable actions of one `wait_ack_then_send` call. -/
def sendEvents (ch : Chan) (k : PayloadKind) (out : SendOut) : List Ev :=
  [Ev.sendCall ch k]
    ++ (if out.loggedTimeout then [Ev.logAckTimeout ch] else [])
    ++ (match out.writeTime with
        | some t => [Ev.wrote ch k t]
        | none => [])
    ++ (if out.connection_lost then [Ev.logSendError ch, Ev.closed ch] else [])

/-- `ser.close()` flips the pyserial object's `is_open` flag; the variable
keeps referencing the now-closed object. -/
def closeHandle : Option SerialHandle → Option SerialHandle
  | none => none
  | some h => some { h with is_open := false }

/-- Lines 229–251: when the active-arm set narrows (both→one, or
left↔right), send the fixed rest script to the channel being deactivated
through `wait_ack_then_send` (with `timeout_msg=None`), logging the
rest-position line only when the send succeeded. Note the code ignores
`connection_lost` here: on a write failure the handle object is closed but
the variable is not cleared. Returns (state, events, clock after). -/
def restPhase (st : MState) (la ca : Option Arm) (renv : SendEnv) (clock : Nat) :
    MState × List Ev × Nat :=
  match la, ca with
  | some la, some c =>
    if c = Arm.right ∧ (la = Arm.both ∨ la = Arm.left) then
      let out := wait_ack_then_send (is_serial_valid st.serLeft)
        (is_serial_valid st.serRight) st.pendingLeft st.ackLeft st.ackRight
        false clock renv
      ({ st with
          serLeft := if out.closedHandle then closeHandle st.serLeft else st.serLeft,
          pendingLeft := out.pending,
          ackLeft := out.ackEvent,
          ackRight := out.otherAckEvent },
        sendEvents .left .rest out ++ (if out.sent then [Ev.logRestSent .left] else []),
        out.finishTime)
    else if c = Arm.left ∧ (la = Arm.both ∨ la = Arm.right) then
      let out := wait_ack_then_send (is_serial_valid st.serRight)
        (is_serial_valid st.serLeft) st.pendingRight st.ackRight st.ackLeft
        false clock renv
      ({ st with
          serRight := if out.closedHandle then closeHandle st.serRight else st.serRight,
          pendingRight := out.pending,
          ackRight := out.ackEvent,
          ackLeft := out.otherAckEvent },
        sendEvents .right .rest out ++ (if out.sent then [Ev.logRestSent .right] else []),
        out.finishTime)
    else (st, [], clock)
  | _, _ => (st, [], clock)

/-- Lines 253–268: ACK-gated send of the motion payload to LEFT when routed
there (on `connection_lost` the handle is dropped and the reconnect clock
stamped), then the bounded-rate reconnect attempt.
Returns (state, events, write tick, clock after). -/
def mainLeftPhase (st : MState) (sendL : Bool) (lenv : SendEnv)
    (currentTime clock : Nat) (reconn : Option SerialHandle) :
    MState × List Ev × Option Nat × Nat :=
  let a :=
    if sendL then
      let out := wait_ack_then_send (is_serial_valid st.serLeft)
        (is_serial_valid st.serRight) st.pendingLeft st.ackLeft st.ackRight
        true clock lenv
      ({ st with
          serLeft := if out.connection_lost then none else st.serLeft,
          pendingLeft := out.pending,
          ackLeft := out.ackEvent,
          ackRight := out.otherAckEvent,
          lastReconnectLeft :=
            if out.connection_lost then currentTime else st.lastReconnectLeft },
        sendEvents .left .motion out
          ++ (if out.sent then [Ev.logExecSent .left] else []),
        out.writeTime, out.finishTime)
    else (st, ([] : List Ev), (none : Option Nat), clock)
  let st1 := a.1
  if st1.serLeft = none ∧ RECONNECT_INTERVAL ≤ currentTime - st1.lastReconnectLeft then
    ({ st1 with
        serLeft := reconn,
        lastReconnectLeft := if reconn = none then currentTime else st1.lastReconnectLeft },
      a.2.1 ++ [Ev.reconnectAttempt .left currentTime], a.2.2.1, a.2.2.2)
  else (st1, a.2.1, a.2.2.1, a.2.2.2)

/-- Lines 270–285: the mirrored RIGHT send and reconnect. -/
def mainRightPhase (st : MState) (sendR : Bool) (renv : SendEnv)
    (currentTime clock : Nat) (reconn : Option SerialHandle) :
    MState × List Ev × Option Nat × Nat :=
  let a :=
    if sendR then
      let out := wait_ack_then_send (is_serial_valid st.serRight)
        (is_serial_valid st.serLeft) st.pendingRight st.ackRight st.ackLeft
        true clock renv
      ({ st with
          serRight := if out.connection_lost then none else st.serRight,
          pendingRight := out.pending,
          ackRight := out.ackEvent,
          ackLeft := out.otherAckEvent,
          lastReconnectRight :=
            if out.connection_lost then currentTime else st.lastReconnectRight },
        sendEvents .right .motion out
          ++ (if out.sent then [Ev.logExecSent .right] else []),
        out.writeTime, out.finishTime)
    else (st, ([] : List Ev), (none : Option Nat), clock)
  let st1 := a.1
  if st1.serRight = none ∧ RECONNECT_INTERVAL ≤ currentTime - st1.lastReconnectRight then
    ({ st1 with
        serRight := reconn,
        lastReconnectRight := if reconn = none then currentTime else st1.lastReconnectRight },
      a.2.1 ++ [Ev.reconnectAttempt .right currentTime], a.2.2.1, a.2.2.2)
  else (st1, a.2.1, a.2.2.1, a.2.2.2)

/-- The rest transition of a step, at the step's starting clock. -/
def stepRest (st : MState) (script : Script) (env : StepEnv) :
    MState × List Ev × Nat :=
  restPhase st st.lastActiveArm (currentActiveArm script) env.restEnv env.currentTime

/-- The LEFT send of a step, starting when the rest transition finished. -/
def stepLeft (st : MState) (script : Script) (env : StepEnv) :
    MState × List Ev × Option Nat × Nat :=
  mainLeftPhase (stepRest st script env).1
    (get_arms_for_script (normalizeScript script)).1 env.leftEnv
    env.currentTime (stepRest st script env).2.2 env.reconnectLeft

/-- The RIGHT send of a step, starting when the LEFT phase finished. -/
def stepRight (st : MState) (script : Script) (env : StepEnv) :
    MState × List Ev × Option Nat × Nat :=
  mainRightPhase (stepLeft st script env).1
    (get_arms_for_script (normalizeScript script)).2 env.rightEnv
    env.currentTime (stepLeft st script env).2.2.2 env.reconnectRight

/-- Line 290–292: the inter-motion pacing delay. -/
def pacingDelay (script : Script) (env : StepEnv) : Nat :=
  if env.queueNonEmptyAfter then
    if ((normalizeScript script).token.getD "").length = 1 then FINGERSPELL_POST_DELAY
    else SIGN_POST_DELAY
  else 0

/-- Result of one processed queue item. -/
structure StepOut where
  state : MState
  events : List Ev
  leftWriteTime : Option Nat
  rightWriteTime : Option Nat
  finishTime : Nat
deriving DecidableEq, Repr

/-- One processed queue item of `run_motion`'s loop (lines 205–292):
normalize keyframes, route, print the routing line, compute the active-arm
set, run the rest transition, the LEFT send + reconnect, the RIGHT send +
reconnect (each phase starting when the previous finished — the loop is
sequential), update `last_active_arm`, and apply the pacing delay. -/
def runMotionStep (st : MState) (script : Script) (env : StepEnv) : StepOut :=
  ⟨{ (stepRight st script env).1 with lastActiveArm := currentActiveArm script },
   Ev.logSendingTo ((normalizeScript script).token.getD "?") (targetOf script)
     :: ((stepRest st script env).2.1 ++ (stepLeft st script env).2.1
          ++ (stepRight st script env).2.1),
   (stepLeft st script env).2.2.1,
   (stepRight st script env).2.2.1,
   (stepRight st script env).2.2.2 + pacingDelay script env⟩

/-! ## C3: rest-position transitions -/

/-- Entry into the ACK-gated send path carrying a rest payload. -/
def isRestSendCall : Ev → Bool
  | .sendCall _ .rest => true
  | _ => false

/-- Entry into the ACK-gated send path carrying the motion payload. -/
def isMotionSendCall : Ev → Bool
  | .sendCall _ .motion => true
  | _ => false

theorem sendEvents_filter_rest (ch : Chan) (k : PayloadKind) (out : SendOut) :
    (sendEvents ch k out).filter isRestSendCall
      = if k = .rest then [Ev.sendCall ch .rest] else [] := by
  cases k <;>
    cases hw : out.writeTime <;>
      by_cases h1 : out.loggedTimeout = true <;>
        by_cases h2 : out.connection_lost = true <;>
          simp [sendEvents, hw, h1, h2, isRestSendCall, List.filter_append]

theorem sendEvents_filter_motion (ch : Chan) (k : PayloadKind) (out : SendOut) :
    (sendEvents ch k out).filter isMotionSendCall
      = if k = .motion then [Ev.sendCall ch .motion] else [] := by
  cases k <;>
    cases hw : out.writeTime <;>
      by_cases h1 : out.loggedTimeout = true <;>
        by_cases h2 : out.connection_lost = true <;>
          simp [sendEvents, hw, h1, h2, isMotionSendCall, List.filter_append]

theorem mainLeftPhase_no_restcall (st : MState) (sendL : Bool) (lenv : SendEnv)
    (t clock : Nat) (reconn : Option SerialHandle) :
    ((mainLeftPhase st sendL lenv t clock reconn).2.1).filter isRestSendCall = [] := by
  rw [mainLeftPhase]
  by_cases hs : sendL = true <;>
    simp only [hs, Bool.false_eq_true, if_true, if_false] <;>
      split_ifs <;>
        simp [List.filter_append, sendEvents_filter_rest, isRestSendCall]

theorem mainRightPhase_no_restcall (st : MState) (sendR : Bool) (renv : SendEnv)
    (t clock : Nat) (reconn : Option SerialHandle) :
    ((mainRightPhase st sendR renv t clock reconn).2.1).filter isRestSendCall = [] := by
  rw [mainRightPhase]
  by_cases hs : sendR = true <;>
    simp only [hs, Bool.false_eq_true, if_true, if_false] <;>
      split_ifs <;>
        simp [List.filter_append, sendEvents_filter_rest, isRestSendCall]

theorem restPhase_no_motioncall (st : MState) (la ca : Option Arm) (renv : SendEnv)
    (clock : Nat) :
    ((restPhase st la ca renv clock).2.1).filter isMotionSendCall = [] := by
  cases la with
  | none => cases ca <;> simp [restPhase]
  | some a =>
    cases ca with
    | none => simp [restPhase]
    | some c =>
      rw [restPhase]
      split_ifs <;>
        simp [List.filter_append, sendEvents_filter_motion, isMotionSendCall]

theorem stepLeft_no_restcall (st : MState) (script : Script) (env : StepEnv) :
    ((stepLeft st script env).2.1).filter isRestSendCall = [] := by
  rw [stepLeft]
  exact mainLeftPhase_no_restcall _ _ _ _ _ _

theorem stepRight_no_restcall (st : MState) (script : Script) (env : StepEnv) :
    ((stepRight st script env).2.1).filter isRestSendCall = [] := by
  rw [stepRight]
  exact mainRightPhase_no_restcall _ _ _ _ _ _

/-- The narrowing transitions of the active-arm set (lines 230 and 241). -/
def narrows (la ca : Arm) : Prop :=
  (ca = .right ∧ (la = .both ∨ la = .left)) ∨ (ca = .left ∧ (la = .both ∨ la = .right))

/-- The channel being deactivated when the active set narrows to `ca`. -/
def deactChan : Arm → Chan
  | .left => .right
  | _ => .left

/-- C3: whenever a processed motion's computed active arm set narrows
relative to the previous one (both→left, both→right, left→right,
right→left), the step enters the ACK-gated send path exactly once with a
rest payload, addressed to the channel being deactivated, and does so
before any motion-payload send; when the set is unchanged or only grows, no
rest send happens at all. -/
theorem rest_transition_spec (st : MState) (script : Script) (env : StepEnv)
    (la ca : Arm) (hla : st.lastActiveArm = some la)
    (hca : currentActiveArm script = some ca) :
    (narrows la ca →
      ∃ pre post, (runMotionStep st script env).events = pre ++ post ∧
        pre.filter isRestSendCall = [Ev.sendCall (deactChan ca) PayloadKind.rest] ∧
        pre.filter isMotionSendCall = [] ∧
        post.filter isRestSendCall = []) ∧
    (¬ narrows la ca →
      ((runMotionStep st script env).events).filter isRestSendCall = []) := by
  have hev : (runMotionStep st script env).events
      = Ev.logSendingTo ((normalizeScript script).token.getD "?") (targetOf script)
        :: ((stepRest st script env).2.1 ++ (stepLeft st script env).2.1
             ++ (stepRight st script env).2.1) := rfl
  have hrest : (stepRest st script env).2.1
      = (restPhase st (some la) (some ca) env.restEnv env.currentTime).2.1 := by
    rw [stepRest, hla, hca]
  constructor
  · intro hn
    refine ⟨Ev.logSendingTo ((normalizeScript script).token.getD "?") (targetOf script)
        :: (stepRest st script env).2.1,
      (stepLeft st script env).2.1 ++ (stepRight st script env).2.1, ?_, ?_, ?_, ?_⟩
    · rw [hev]
      simp [List.append_assoc]
    · rw [List.filter_cons_of_neg (by simp [isRestSendCall]), hrest]
      rcases hn with ⟨hc, hl⟩ | ⟨hc, hl⟩
      · subst hc
        rw [restPhase]
        rw [if_pos ⟨rfl, hl⟩]
        have : deactChan Arm.right = Chan.left := rfl
        rw [this]
        by_cases hsent : (wait_ack_then_send (is_serial_valid st.serLeft)
            (is_serial_valid st.serRight) st.pendingLeft st.ackLeft st.ackRight
            false env.currentTime env.restEnv).sent = true <;>
          simp [hsent, List.filter_append, sendEvents_filter_rest, isRestSendCall]
      · subst hc
        rw [restPhase]
        rw [if_neg (by rintro ⟨h, -⟩; exact Arm.noConfusion h), if_pos ⟨rfl, hl⟩]
        have : deactChan Arm.left = Chan.right := rfl
        rw [this]
        by_cases hsent : (wait_ack_then_send (is_serial_valid st.serRight)
            (is_serial_valid st.serLeft) st.pendingRight st.ackRight st.ackLeft
            false env.currentTime env.restEnv).sent = true <;>
          simp [hsent, List.filter_append, sendEvents_filter_rest, isRestSendCall]
    · rw [List.filter_cons_of_neg (by simp [isMotionSendCall]), hrest]
      exact restPhase_no_motioncall st (some la) (some ca) env.restEnv env.currentTime
    · rw [List.filter_append, stepLeft_no_restcall, stepRight_no_restcall,
        List.append_nil]
  · intro hn
    rw [hev, List.filter_cons_of_neg (by simp [isRestSendCall]), List.filter_append,
      List.filter_append, stepLeft_no_restcall, stepRight_no_restcall,
      List.append_nil, List.append_nil, hrest]
    rw [restPhase]
    rw [if_neg (fun h => hn (Or.inl h)), if_neg (fun h => hn (Or.inr h))]
    rfl

/-- Witness for C3: a BOTH→RIGHT transition at concrete state and
environment: exactly one rest send call, addressed to LEFT, before the
motion send; and a RIGHT→RIGHT non-transition with zero rest send calls. -/
theorem rest_transition_spec_witness :
    (narrows Arm.both Arm.right →
      ∃ pre post,
        (runMotionStep
          ⟨some ⟨true, true⟩, some ⟨true, true⟩, false, false, false, false,
            some Arm.both, 0, 0⟩
          ⟨some "SIGN", some (.arr [.dict ["R"]])⟩
          ⟨1000, ⟨[], false, true, false⟩, ⟨[], false, true, false⟩,
            ⟨[], false, true, false⟩, none, none, false⟩).events = pre ++ post ∧
        pre.filter isRestSendCall = [Ev.sendCall (deactChan Arm.right) PayloadKind.rest] ∧
        pre.filter isMotionSendCall = [] ∧
        post.filter isRestSendCall = []) ∧
    (¬ narrows Arm.right Arm.right →
      ((runMotionStep
          ⟨some ⟨true, true⟩, some ⟨true, true⟩, false, false, false, false,
            some Arm.right, 0, 0⟩
          ⟨some "SIGN", some (.arr [.dict ["R"]])⟩
          ⟨1000, ⟨[], false, true, false⟩, ⟨[], false, true, false⟩,
            ⟨[], false, true, false⟩, none, none, false⟩).events).filter
        isRestSendCall = []) :=
  ⟨(rest_transition_spec
      ⟨some ⟨true, true⟩, some ⟨true, true⟩, false, false, false, false,
        some Arm.both, 0, 0⟩
      ⟨some "SIGN", some (.arr [.dict ["R"]])⟩
      ⟨1000, ⟨[], false, true, false⟩, ⟨[], false, true, false⟩,
        ⟨[], false, true, false⟩, none, none, false⟩
      Arm.both Arm.right rfl (by decide)).1,
   (rest_transition_spec
      ⟨some ⟨true, true⟩, some ⟨true, true⟩, false, false, false, false,
        some Arm.right, 0, 0⟩
      ⟨some "SIGN", some (.arr [.dict ["R"]])⟩
      ⟨1000, ⟨[], false, true, false⟩, ⟨[], false, true, false⟩,
        ⟨[], false, true, false⟩, none, none, false⟩
      Arm.right Arm.right rfl (by decide)).2⟩

/-! ## Characterizations of `wait_ack_then_send`, shared by the dispatch
claims -/

theorem wait_ack_then_send_writes (otherValid pending ackEv otherEv hasMsg : Bool)
    (callTime : Nat) (env : SendEnv)
    (hshut1 : ∀ s ∈ env.steps, s.shutdown = false)
    (hshut2 : env.shutdownAfterWait = false)
    (hadeq : ∃ s ∈ env.steps, ACK_TIMEOUT < s.elapsed)
    (hwok : env.writeOk = true) :
    (wait_ack_then_send true otherValid pending ackEv otherEv hasMsg callTime env).sent
        = true ∧
    (wait_ack_then_send true otherValid pending ackEv otherEv hasMsg callTime
        env).connection_lost = false ∧
    ∃ t, (wait_ack_then_send true otherValid pending ackEv otherEv hasMsg callTime
        env).writeTime = some t := by
  cases pending with
  | false =>
    rw [wait_ack_then_send]
    simp [hshut2, hwok]
  | true =>
    obtain ⟨hout, -⟩ := ack_wait_loop_resolves otherValid env.steps ackEv otherEv hshut1 hadeq
    have hcond :
        (decide ((ack_wait_loop otherValid env.steps ackEv otherEv).outcome
            = WaitOutcome.shutdownSeen) ||
          decide ((ack_wait_loop otherValid env.steps ackEv otherEv).outcome
            = WaitOutcome.starved) ||
          env.shutdownAfterWait) = false := by
      rcases hout with h | h <;> rw [h] <;> simp [hshut2]
    rw [wait_ack_then_send]
    simp only [Bool.not_true, Bool.false_eq_true, if_false, if_true, hcond]
    rw [if_pos hwok]
    exact ⟨rfl, rfl, _, rfl⟩

theorem wait_ack_then_send_fails (otherValid pending ackEv otherEv hasMsg : Bool)
    (callTime : Nat) (env : SendEnv)
    (hshut1 : ∀ s ∈ env.steps, s.shutdown = false)
    (hshut2 : env.shutdownAfterWait = false)
    (hadeq : ∃ s ∈ env.steps, ACK_TIMEOUT < s.elapsed)
    (hbad : env.writeOk = false) :
    (wait_ack_then_send true otherValid pending ackEv otherEv hasMsg callTime env).sent
        = false ∧
    (wait_ack_then_send true otherValid pending ackEv otherEv hasMsg callTime
        env).connection_lost = true ∧
    (wait_ack_then_send true otherValid pending ackEv otherEv hasMsg callTime
        env).closedHandle = true ∧
    (wait_ack_then_send true otherValid pending ackEv otherEv hasMsg callTime
        env).writeTime = none := by
  cases pending with
  | false =>
    rw [wait_ack_then_send]
    simp [hshut2, hbad]
  | true =>
    obtain ⟨hout, -⟩ := ack_wait_loop_resolves otherValid env.steps ackEv otherEv hshut1 hadeq
    have hcond :
        (decide ((ack_wait_loop otherValid env.steps ackEv otherEv).outcome
            = WaitOutcome.shutdownSeen) ||
          decide ((ack_wait_loop otherValid env.steps ackEv otherEv).outcome
            = WaitOutcome.starved) ||
          env.shutdownAfterWait) = false := by
      rcases hout with h | h <;> rw [h] <;> simp [hshut2]
    rw [wait_ack_then_send]
    simp only [Bool.not_true, Bool.false_eq_true, if_false, if_true, hcond]
    rw [if_neg (by rw [hbad]; exact fun hc => Bool.noConfusion hc)]
    exact ⟨rfl, rfl, rfl, rfl⟩

theorem wait_ack_then_send_invalid (otherValid pending ackEv otherEv hasMsg : Bool)
    (callTime : Nat) (env : SendEnv) :
    (wait_ack_then_send false otherValid pending ackEv otherEv hasMsg callTime env).sent
        = false ∧
    (wait_ack_then_send false otherValid pending ackEv otherEv hasMsg callTime
        env).connection_lost = false ∧
    (wait_ack_then_send false otherValid pending ackEv otherEv hasMsg callTime
        env).loggedTimeout = false ∧
    (wait_ack_then_send false otherValid pending ackEv otherEv hasMsg callTime
        env).writeTime = none := by
  rw [wait_ack_then_send]
  exact ⟨rfl, rfl, rfl, rfl⟩

theorem ack_wait_loop_times_out (otherValid : Bool) (steps : List WaitStep)
    (otherEv : Bool)
    (hshut : ∀ s ∈ steps, s.shutdown = false)
    (hnoack : ∀ s ∈ steps, s.ackArrives = false)
    (hadeq : ∃ s ∈ steps, ACK_TIMEOUT < s.elapsed) :
    (ack_wait_loop otherValid steps false otherEv).outcome = .timedOut := by
  induction steps generalizing otherEv with
  | nil => simp at hadeq
  | cons s rest ih =>
    have hs : s.shutdown = false := hshut s (List.mem_cons_self s rest)
    have ha : s.ackArrives = false := hnoack s (List.mem_cons_self s rest)
    rw [ack_wait_loop, hs]
    simp only [Bool.false_eq_true, if_false, ha, Bool.or_false]
    by_cases hto : ACK_TIMEOUT < s.elapsed
    · simp [hto]
    · rw [if_neg hto]
      refine ih _ (fun x hx => hshut x (List.mem_cons_of_mem s hx))
        (fun x hx => hnoack x (List.mem_cons_of_mem s hx)) ?_
      obtain ⟨x, hx, hlt⟩ := hadeq
      rcases List.mem_cons.mp hx with h | h
      · exact absurd (h ▸ hlt) hto
      · exact ⟨x, h, hlt⟩

theorem wait_ack_then_send_timeout_writes (otherValid otherEv hasMsg : Bool)
    (callTime : Nat) (env : SendEnv)
    (hshut1 : ∀ s ∈ env.steps, s.shutdown = false)
    (hshut2 : env.shutdownAfterWait = false)
    (hnoack : ∀ s ∈ env.steps, s.ackArrives = false)
    (hadeq : ∃ s ∈ env.steps, ACK_TIMEOUT < s.elapsed)
    (hwok : env.writeOk = true) :
    (wait_ack_then_send true otherValid true false otherEv hasMsg callTime
        env).loggedTimeout = hasMsg ∧
    (wait_ack_then_send true otherValid true false otherEv hasMsg callTime env).sent
        = true ∧
    ∃ t, (wait_ack_then_send true otherValid true false otherEv hasMsg callTime
        env).writeTime = some t := by
  have hto := ack_wait_loop_times_out otherValid env.steps otherEv hshut1 hnoack hadeq
  have hcond :
      (decide ((ack_wait_loop otherValid env.steps false otherEv).outcome
          = WaitOutcome.shutdownSeen) ||
        decide ((ack_wait_loop otherValid env.steps false otherEv).outcome
          = WaitOutcome.starved) ||
        env.shutdownAfterWait) = false := by
    rw [hto]
    simp [hshut2]
  rw [wait_ack_then_send]
  simp only [Bool.not_true, Bool.false_eq_true, if_false, if_true, hcond]
  rw [if_pos hwok]
  refine ⟨?_, rfl, _, rfl⟩
  show (hasMsg && decide ((ack_wait_loop otherValid env.steps false otherEv).outcome
      = WaitOutcome.timedOut)) = hasMsg
  rw [hto]
  simp

theorem wait_ack_then_send_write_time_bounds (serValid otherValid pending ackEv otherEv
    hasMsg : Bool) (callTime : Nat) (env : SendEnv) (t : Nat)
    (hw : (wait_ack_then_send serValid otherValid pending ackEv otherEv hasMsg callTime
        env).writeTime = some t) :
    callTime ≤ t ∧
    (wait_ack_then_send serValid otherValid pending ackEv otherEv hasMsg callTime
        env).finishTime = t + POST_WRITE_SETTLE := by
  rw [wait_ack_then_send] at hw ⊢
  by_cases hv : (!serValid) = true
  · rw [if_pos hv] at hw
    exact Option.noConfusion hw
  · rw [if_neg hv] at hw ⊢
    by_cases hc : (decide ((if pending = true then
          ack_wait_loop otherValid env.steps ackEv otherEv
        else ⟨.noWait, 0, ackEv, otherEv, pending⟩).outcome = WaitOutcome.shutdownSeen) ||
        decide ((if pending = true then
          ack_wait_loop otherValid env.steps ackEv otherEv
        else ⟨.noWait, 0, ackEv, otherEv, pending⟩).outcome = WaitOutcome.starved) ||
        env.shutdownAfterWait) = true
    · rw [if_pos hc] at hw
      exact Option.noConfusion hw
    · rw [if_neg hc] at hw ⊢
      by_cases hwk : env.writeOk = true
      · rw [if_pos hwk] at hw ⊢
        have ht : callTime + (if pending = true then
            ack_wait_loop otherValid env.steps ackEv otherEv
          else ⟨.noWait, 0, ackEv, otherEv, pending⟩).exitElapsed = t :=
          Option.some.inj hw
        exact ⟨ht ▸ Nat.le_add_right callTime _, by rw [ht]⟩
      · rw [if_neg hwk] at hw
        exact Option.noConfusion hw

/-! ## C4: no silent drops -/

/-- A write of the motion payload on channel `ch`. -/
def isMotionWrite (ch : Chan) : Ev → Bool
  | .wrote c .motion _ => c == ch
  | _ => false

/-- The step wrote the motion payload to channel `ch`. -/
def wroteMotionTo (evs : List Ev) (ch : Chan) : Bool := evs.any (isMotionWrite ch)

/-- The step printed the ACK-timeout warning for channel `ch`. -/
def loggedTimeoutFor (evs : List Ev) (ch : Chan) : Bool :=
  evs.any (fun e => e == Ev.logAckTimeout ch)

/-- C4's disjunction, as stated: every consumed motion command is either
written to its selected channel(s), or written after a logged 8-second ACK
timeout, or routed to both channels. -/
def dispatchedPerClaim (st : MState) (script : Script) (env : StepEnv) : Prop :=
  (((get_arms_for_script (normalizeScript script)).1 = true →
      wroteMotionTo (runMotionStep st script env).events .left = true) ∧
   ((get_arms_for_script (normalizeScript script)).2 = true →
      wroteMotionTo (runMotionStep st script env).events .right = true)) ∨
  ((loggedTimeoutFor (runMotionStep st script env).events .left = true ∧
      wroteMotionTo (runMotionStep st script env).events .left = true) ∨
   (loggedTimeoutFor (runMotionStep st script env).events .right = true ∧
      wroteMotionTo (runMotionStep st script env).events .right = true)) ∨
  ((get_arms_for_script (normalizeScript script)).1 = true ∧
   (get_arms_for_script (normalizeScript script)).2 = true)

/-- C4 counterexample: a LEFT-only motion processed while the LEFT handle is
`None` (as after a connection loss or a failed startup connect) is written
nowhere, triggers no ACK-timeout log, and is not routed to both channels:
`wait_ack_then_send` returns `(False, False)` at its validity guard and
`run_motion` takes no further action for that command, so the claim's
three-way disjunction fails — the command is dropped for its channel (only
the routing log line is emitted). -/
theorem dispatch_disjunction_fails_on_invalid_left :
    ¬ dispatchedPerClaim
        ⟨none, some ⟨true, true⟩, false, false, false, false, none, 0, 0⟩
        ⟨some "LSIGN", some (.arr [.dict ["L"]])⟩
        ⟨1000, ⟨[], false, true, false⟩, ⟨[], false, true, false⟩,
          ⟨[], false, true, false⟩, none, none, false⟩ := by
  unfold dispatchedPerClaim
  decide

theorem wroteMotionTo_cons (e : Ev) (evs : List Ev) (ch : Chan) :
    wroteMotionTo (e :: evs) ch = (isMotionWrite ch e || wroteMotionTo evs ch) := by
  simp [wroteMotionTo]

theorem wroteMotionTo_append (a b : List Ev) (ch : Chan) :
    wroteMotionTo (a ++ b) ch = (wroteMotionTo a ch || wroteMotionTo b ch) := by
  simp [wroteMotionTo]

theorem wroteMotionTo_nil (ch : Chan) : wroteMotionTo [] ch = false := rfl

theorem wroteMotionTo_single (e : Ev) (ch : Chan) :
    wroteMotionTo [e] ch = isMotionWrite ch e := by
  simp [wroteMotionTo]

theorem wroteMotionTo_ite_single (c : Prop) [Decidable c] (e : Ev) (ch : Chan) :
    wroteMotionTo (if c then [e] else []) ch
      = if c then isMotionWrite ch e else false := by
  split_ifs <;> simp [wroteMotionTo]

theorem sendEvents_no_write (ch' : Chan) (k : PayloadKind) (ch : Chan) (out : SendOut)
    (h : out.writeTime = none) :
    wroteMotionTo (sendEvents ch' k out) ch = false := by
  by_cases h1 : out.loggedTimeout = true <;>
    by_cases h2 : out.connection_lost = true <;>
      simp [sendEvents, wroteMotionTo, h, h1, h2, isMotionWrite]

theorem sendEvents_rest_no_motion_write (ch' ch : Chan) (out : SendOut) :
    wroteMotionTo (sendEvents ch' .rest out) ch = false := by
  cases hw : out.writeTime <;>
    by_cases h1 : out.loggedTimeout = true <;>
      by_cases h2 : out.connection_lost = true <;>
        simp [sendEvents, wroteMotionTo, hw, h1, h2, isMotionWrite]

theorem sendEvents_other_channel_no_write (ch' ch : Chan) (k : PayloadKind)
    (out : SendOut) (h : (ch' == ch) = false) :
    wroteMotionTo (sendEvents ch' k out) ch = false := by
  cases k <;>
    cases hw : out.writeTime <;>
      by_cases h1 : out.loggedTimeout = true <;>
        by_cases h2 : out.connection_lost = true <;>
          simp [sendEvents, wroteMotionTo, hw, h1, h2, isMotionWrite, h]

theorem sendEvents_motion_has_write (ch : Chan) (out : SendOut) (t : Nat)
    (h : out.writeTime = some t) :
    wroteMotionTo (sendEvents ch .motion out) ch = true := by
  by_cases h1 : out.loggedTimeout = true <;>
    simp [sendEvents, wroteMotionTo, h, h1, isMotionWrite]

theorem sendEvents_left_no_right_write (k : PayloadKind) (out : SendOut) :
    wroteMotionTo (sendEvents Chan.left k out) Chan.right = false :=
  sendEvents_other_channel_no_write _ _ _ _ rfl

theorem sendEvents_right_no_left_write (k : PayloadKind) (out : SendOut) :
    wroteMotionTo (sendEvents Chan.right k out) Chan.left = false :=
  sendEvents_other_channel_no_write _ _ _ _ rfl

theorem restPhase_no_motion_write (st : MState) (la ca : Option Arm) (renv : SendEnv)
    (clock : Nat) (ch : Chan) :
    wroteMotionTo ((restPhase st la ca renv clock).2.1) ch = false := by
  cases la with
  | none => cases ca <;> rfl
  | some a =>
    cases ca with
    | none => rfl
    | some c =>
      rw [restPhase]
      split_ifs <;>
        simp [wroteMotionTo_append, wroteMotionTo_cons, wroteMotionTo_single, wroteMotionTo_nil,
          wroteMotionTo_ite_single, ite_self,
          sendEvents_rest_no_motion_write, isMotionWrite]

theorem mainLeftPhase_no_right_write (st : MState) (sendL : Bool) (lenv : SendEnv)
    (time clock : Nat) (reconn : Option SerialHandle) :
    wroteMotionTo ((mainLeftPhase st sendL lenv time clock reconn).2.1) .right = false := by
  rw [mainLeftPhase]
  by_cases hs : sendL = true <;>
    simp only [hs, Bool.false_eq_true, if_true, if_false] <;>
      split_ifs <;>
        simp [wroteMotionTo_append, wroteMotionTo_cons, wroteMotionTo_single, wroteMotionTo_nil,
          wroteMotionTo_ite_single, ite_self,
          sendEvents_left_no_right_write, isMotionWrite]

theorem mainRightPhase_no_left_write (st : MState) (sendR : Bool) (renv : SendEnv)
    (time clock : Nat) (reconn : Option SerialHandle) :
    wroteMotionTo ((mainRightPhase st sendR renv time clock reconn).2.1) .left = false := by
  rw [mainRightPhase]
  by_cases hs : sendR = true <;>
    simp only [hs, Bool.false_eq_true, if_true, if_false] <;>
      split_ifs <;>
        simp [wroteMotionTo_append, wroteMotionTo_cons, wroteMotionTo_single, wroteMotionTo_nil,
          wroteMotionTo_ite_single, ite_self,
          sendEvents_right_no_left_write, isMotionWrite]

theorem mainLeftPhase_invalid_no_write (st : MState) (sendL : Bool) (lenv : SendEnv)
    (time clock : Nat) (reconn : Option SerialHandle)
    (hv : is_serial_valid st.serLeft = false) :
    wroteMotionTo ((mainLeftPhase st sendL lenv time clock reconn).2.1) .left = false := by
  obtain ⟨-, -, -, hw⟩ := wait_ack_then_send_invalid (is_serial_valid st.serRight)
    st.pendingLeft st.ackLeft st.ackRight true clock lenv
  rw [mainLeftPhase, hv]
  by_cases hs : sendL = true <;>
    simp only [hs, Bool.false_eq_true, if_true, if_false] <;>
      split_ifs <;>
        simp [wroteMotionTo_append, wroteMotionTo_cons, wroteMotionTo_single, wroteMotionTo_nil,
          wroteMotionTo_ite_single, ite_self,
          sendEvents_no_write _ _ _ _ hw, isMotionWrite]

theorem mainRightPhase_invalid_no_write (st : MState) (sendR : Bool) (renv : SendEnv)
    (time clock : Nat) (reconn : Option SerialHandle)
    (hv : is_serial_valid st.serRight = false) :
    wroteMotionTo ((mainRightPhase st sendR renv time clock reconn).2.1) .right = false := by
  obtain ⟨-, -, -, hw⟩ := wait_ack_then_send_invalid (is_serial_valid st.serLeft)
    st.pendingRight st.ackRight st.ackLeft true clock renv
  rw [mainRightPhase, hv]
  by_cases hs : sendR = true <;>
    simp only [hs, Bool.false_eq_true, if_true, if_false] <;>
      split_ifs <;>
        simp [wroteMotionTo_append, wroteMotionTo_cons, wroteMotionTo_single, wroteMotionTo_nil,
          wroteMotionTo_ite_single, ite_self,
          sendEvents_no_write _ _ _ _ hw, isMotionWrite]

theorem mainLeftPhase_writes (st : MState) (lenv : SendEnv) (time clock : Nat)
    (reconn : Option SerialHandle)
    (hv : is_serial_valid st.serLeft = true)
    (hshut1 : ∀ s ∈ lenv.steps, s.shutdown = false)
    (hshut2 : lenv.shutdownAfterWait = false)
    (hadeq : ∃ s ∈ lenv.steps, ACK_TIMEOUT < s.elapsed)
    (hwok : lenv.writeOk = true) :
    wroteMotionTo ((mainLeftPhase st true lenv time clock reconn).2.1) .left = true := by
  obtain ⟨hs, hc, t, hw⟩ := wait_ack_then_send_writes (is_serial_valid st.serRight)
    st.pendingLeft st.ackLeft st.ackRight true clock lenv hshut1 hshut2 hadeq hwok
  rw [mainLeftPhase, hv]
  split_ifs <;>
    simp_all [wroteMotionTo_append, wroteMotionTo_cons, wroteMotionTo_single, wroteMotionTo_nil,
      wroteMotionTo_ite_single, ite_self, sendEvents_motion_has_write Chan.left _ t hw]

theorem mainRightPhase_writes (st : MState) (renv : SendEnv) (time clock : Nat)
    (reconn : Option SerialHandle)
    (hv : is_serial_valid st.serRight = true)
    (hshut1 : ∀ s ∈ renv.steps, s.shutdown = false)
    (hshut2 : renv.shutdownAfterWait = false)
    (hadeq : ∃ s ∈ renv.steps, ACK_TIMEOUT < s.elapsed)
    (hwok : renv.writeOk = true) :
    wroteMotionTo ((mainRightPhase st true renv time clock reconn).2.1) .right = true := by
  obtain ⟨hs, hc, t, hw⟩ := wait_ack_then_send_writes (is_serial_valid st.serLeft)
    st.pendingRight st.ackRight st.ackLeft true clock renv hshut1 hshut2 hadeq hwok
  rw [mainRightPhase, hv]
  split_ifs <;>
    simp_all [wroteMotionTo_append, wroteMotionTo_cons, wroteMotionTo_single, wroteMotionTo_nil,
      wroteMotionTo_ite_single, ite_self, sendEvents_motion_has_write Chan.right _ t hw]

/-- C4 (amended): every motion command consumed from the queue emits the
routing log line `[MOTION_IO] Sending '<token>' to <target>` as its first
event, so it is never silently dropped; each selected channel whose serial
handle is valid when its send starts — with no shutdown, a wait trace that
resolves, and a succeeding write — gets the payload written (directly or
after the logged 8-second ACK timeout); but a channel whose handle is
`None` or invalid gets nothing written: the command is dropped for that
channel, with only the routing log line emitted. -/
theorem dispatch_logs_and_writes (st : MState) (script : Script) (env : StepEnv) :
    (runMotionStep st script env).events.head?
      = some (Ev.logSendingTo ((normalizeScript script).token.getD "?")
          (targetOf script)) ∧
    ((get_arms_for_script (normalizeScript script)).1 = true →
      is_serial_valid (stepRest st script env).1.serLeft = true →
      (∀ s ∈ env.leftEnv.steps, s.shutdown = false) →
      env.leftEnv.shutdownAfterWait = false →
      (∃ s ∈ env.leftEnv.steps, ACK_TIMEOUT < s.elapsed) →
      env.leftEnv.writeOk = true →
      wroteMotionTo (runMotionStep st script env).events .left = true) ∧
    ((get_arms_for_script (normalizeScript script)).2 = true →
      is_serial_valid (stepLeft st script env).1.serRight = true →
      (∀ s ∈ env.rightEnv.steps, s.shutdown = false) →
      env.rightEnv.shutdownAfterWait = false →
      (∃ s ∈ env.rightEnv.steps, ACK_TIMEOUT < s.elapsed) →
      env.rightEnv.writeOk = true →
      wroteMotionTo (runMotionStep st script env).events .right = true) ∧
    (is_serial_valid (stepRest st script env).1.serLeft = false →
      wroteMotionTo (runMotionStep st script env).events .left = false) ∧
    (is_serial_valid (stepLeft st script env).1.serRight = false →
      wroteMotionTo (runMotionStep st script env).events .right = false) := by
  have hev : (runMotionStep st script env).events
      = Ev.logSendingTo ((normalizeScript script).token.getD "?") (targetOf script)
        :: ((stepRest st script env).2.1 ++ (stepLeft st script env).2.1
             ++ (stepRight st script env).2.1) := rfl
  refine ⟨by rw [hev]; rfl, ?_, ?_, ?_, ?_⟩
  · intro h1 hv hs1 hs2 hs3 hs4
    rw [hev, wroteMotionTo_cons, wroteMotionTo_append, wroteMotionTo_append]
    have : wroteMotionTo (stepLeft st script env).2.1 .left = true := by
      rw [stepLeft, h1]
      exact mainLeftPhase_writes _ _ _ _ _ hv hs1 hs2 hs3 hs4
    rw [this]
    simp
  · intro h1 hv hs1 hs2 hs3 hs4
    rw [hev, wroteMotionTo_cons, wroteMotionTo_append, wroteMotionTo_append]
    have : wroteMotionTo (stepRight st script env).2.1 .right = true := by
      rw [stepRight, h1]
      exact mainRightPhase_writes _ _ _ _ _ hv hs1 hs2 hs3 hs4
    rw [this]
    simp
  · intro hv
    rw [hev, wroteMotionTo_cons, wroteMotionTo_append, wroteMotionTo_append]
    have hl : wroteMotionTo (stepLeft st script env).2.1 .left = false := by
      rw [stepLeft]
      exact mainLeftPhase_invalid_no_write _ _ _ _ _ _ hv
    have hrst : wroteMotionTo (stepRest st script env).2.1 .left = false := by
      rw [stepRest]
      exact restPhase_no_motion_write _ _ _ _ _ _
    have hr : wroteMotionTo (stepRight st script env).2.1 .left = false := by
      rw [stepRight]
      exact mainRightPhase_no_left_write _ _ _ _ _ _
    rw [hl, hrst, hr]
    simp [isMotionWrite]
  · intro hv
    rw [hev, wroteMotionTo_cons, wroteMotionTo_append, wroteMotionTo_append]
    have hr : wroteMotionTo (stepRight st script env).2.1 .right = false := by
      rw [stepRight]
      exact mainRightPhase_invalid_no_write _ _ _ _ _ _ hv
    have hrst : wroteMotionTo (stepRest st script env).2.1 .right = false := by
      rw [stepRest]
      exact restPhase_no_motion_write _ _ _ _ _ _
    have hl : wroteMotionTo (stepLeft st script env).2.1 .right = false := by
      rw [stepLeft]
      exact mainLeftPhase_no_right_write _ _ _ _ _ _
    rw [hl, hrst, hr]
    simp [isMotionWrite]

/-- Witness for the amended C4 theorem: a LEFT-only command at a valid LEFT
handle with an immediately-resolving environment is written to LEFT;
applied at a concrete state and environment. -/
theorem dispatch_logs_and_writes_witness :
    wroteMotionTo (runMotionStep
        ⟨some ⟨true, true⟩, some ⟨true, true⟩, false, false, false, false, none, 0, 0⟩
        ⟨some "LSIGN", some (.arr [.dict ["L"]])⟩
        ⟨1000, ⟨[], false, true, false⟩, ⟨[⟨false, true, false, 0⟩, ⟨false, false, false, 900⟩],
          false, true, false⟩, ⟨[], false, true, false⟩, none, none, false⟩).events .left
      = true :=
  (dispatch_logs_and_writes
      ⟨some ⟨true, true⟩, some ⟨true, true⟩, false, false, false, false, none, 0, 0⟩
      ⟨some "LSIGN", some (.arr [.dict ["L"]])⟩
      ⟨1000, ⟨[], false, true, false⟩, ⟨[⟨false, true, false, 0⟩, ⟨false, false, false, 900⟩],
        false, true, false⟩, ⟨[], false, true, false⟩, none, none, false⟩).2.1
    (by decide) (by decide) (by decide) rfl (by decide) rfl

/-! ## C6: channel (in)dependence -/

theorem loggedTimeoutFor_cons (e : Ev) (evs : List Ev) (ch : Chan) :
    loggedTimeoutFor (e :: evs) ch
      = ((e == Ev.logAckTimeout ch) || loggedTimeoutFor evs ch) := by
  simp [loggedTimeoutFor]

theorem loggedTimeoutFor_append (a b : List Ev) (ch : Chan) :
    loggedTimeoutFor (a ++ b) ch = (loggedTimeoutFor a ch || loggedTimeoutFor b ch) := by
  simp [loggedTimeoutFor]

theorem sendEvents_logs_timeout (ch : Chan) (k : PayloadKind) (out : SendOut)
    (h : out.loggedTimeout = true) :
    loggedTimeoutFor (sendEvents ch k out) ch = true := by
  cases hw : out.writeTime <;>
    by_cases h2 : out.connection_lost = true <;>
      simp [sendEvents, loggedTimeoutFor, h, hw, h2]

theorem mainLeftPhase_timeout_logs_and_writes (st : MState) (lenv : SendEnv)
    (time clock : Nat) (reconn : Option SerialHandle)
    (hv : is_serial_valid st.serLeft = true)
    (hpend : st.pendingLeft = true) (hack : st.ackLeft = false)
    (hshut1 : ∀ s ∈ lenv.steps, s.shutdown = false)
    (hshut2 : lenv.shutdownAfterWait = false)
    (hnoack : ∀ s ∈ lenv.steps, s.ackArrives = false)
    (hadeq : ∃ s ∈ lenv.steps, ACK_TIMEOUT < s.elapsed)
    (hwok : lenv.writeOk = true) :
    loggedTimeoutFor ((mainLeftPhase st true lenv time clock reconn).2.1) .left = true ∧
    wroteMotionTo ((mainLeftPhase st true lenv time clock reconn).2.1) .left = true := by
  obtain ⟨hlog, hs, t, hw⟩ := wait_ack_then_send_timeout_writes
    (is_serial_valid st.serRight) st.ackRight true clock lenv hshut1 hshut2 hnoack
    hadeq hwok
  rw [mainLeftPhase, hv, hpend, hack]
  constructor <;>
    (split_ifs <;>
      simp_all [loggedTimeoutFor_append, loggedTimeoutFor_cons, wroteMotionTo_append,
        wroteMotionTo_cons, wroteMotionTo_single, wroteMotionTo_nil,
        wroteMotionTo_ite_single, ite_self,
        sendEvents_logs_timeout Chan.left PayloadKind.motion _ hlog,
        sendEvents_motion_has_write Chan.left _ t hw])

theorem mainLeftPhase_clock_after_write (st : MState) (sendL : Bool) (lenv : SendEnv)
    (time clock : Nat) (reconn : Option SerialHandle) (t : Nat)
    (h : (mainLeftPhase st sendL lenv time clock reconn).2.2.1 = some t) :
    (mainLeftPhase st sendL lenv time clock reconn).2.2.2 = t + POST_WRITE_SETTLE := by
  simp only [mainLeftPhase] at h ⊢
  split_ifs at h ⊢ <;>
    first
      | exact Option.noConfusion h
      | exact (wait_ack_then_send_write_time_bounds _ _ _ _ _ _ _ _ _ h).2

theorem mainRightPhase_write_not_before_clock (st : MState) (sendR : Bool)
    (renv : SendEnv) (time clock : Nat) (reconn : Option SerialHandle) (t : Nat)
    (h : (mainRightPhase st sendR renv time clock reconn).2.2.1 = some t) :
    clock ≤ t := by
  simp only [mainRightPhase] at h
  split_ifs at h <;>
    first
      | exact Option.noConfusion h
      | exact (wait_ack_then_send_write_time_bounds _ _ _ _ _ _ _ _ _ h).1

theorem stepLeft_clock_after_write (st : MState) (script : Script) (env : StepEnv)
    (t : Nat) (h : (stepLeft st script env).2.2.1 = some t) :
    (stepLeft st script env).2.2.2 = t + POST_WRITE_SETTLE := by
  rw [stepLeft] at h ⊢
  exact mainLeftPhase_clock_after_write _ _ _ _ _ _ _ h

theorem stepRight_write_not_before_clock (st : MState) (script : Script) (env : StepEnv)
    (t : Nat) (h : (stepRight st script env).2.2.1 = some t) :
    (stepLeft st script env).2.2.2 ≤ t := by
  rw [stepRight] at h
  exact mainRightPhase_write_not_before_clock _ _ _ _ _ _ _ h

/-- C6 (amended): after the 8-second LEFT ACK timeout a warning is logged
and the command is still written to LEFT; but the two channels' cycles are
NOT independent: the dispatch loop is one sequential thread, the RIGHT send
of a step begins only after the LEFT send finishes, so whenever both
channels get written in one step the RIGHT write happens no earlier than
`POST_WRITE_SETTLE` after the LEFT write — a LEFT ACK wait or timeout
therefore delays RIGHT's send. -/
theorem left_timeout_logged_and_sequenced (st : MState) (script : Script) (env : StepEnv)
    (hsel : (get_arms_for_script (normalizeScript script)).1 = true)
    (hv : is_serial_valid (stepRest st script env).1.serLeft = true)
    (hpend : (stepRest st script env).1.pendingLeft = true)
    (hack : (stepRest st script env).1.ackLeft = false)
    (hshut1 : ∀ s ∈ env.leftEnv.steps, s.shutdown = false)
    (hshut2 : env.leftEnv.shutdownAfterWait = false)
    (hnoack : ∀ s ∈ env.leftEnv.steps, s.ackArrives = false)
    (hadeq : ∃ s ∈ env.leftEnv.steps, ACK_TIMEOUT < s.elapsed)
    (hwok : env.leftEnv.writeOk = true) :
    (loggedTimeoutFor (runMotionStep st script env).events .left = true ∧
     wroteMotionTo (runMotionStep st script env).events .left = true) ∧
    (∀ tl tr, (runMotionStep st script env).leftWriteTime = some tl →
      (runMotionStep st script env).rightWriteTime = some tr →
      tl + POST_WRITE_SETTLE ≤ tr) := by
  have hev : (runMotionStep st script env).events
      = Ev.logSendingTo ((normalizeScript script).token.getD "?") (targetOf script)
        :: ((stepRest st script env).2.1 ++ (stepLeft st script env).2.1
             ++ (stepRight st script env).2.1) := rfl
  obtain ⟨hl, hw⟩ := mainLeftPhase_timeout_logs_and_writes (stepRest st script env).1
    env.leftEnv env.currentTime (stepRest st script env).2.2 env.reconnectLeft
    hv hpend hack hshut1 hshut2 hnoack hadeq hwok
  have hst : (stepLeft st script env).2.1
      = (mainLeftPhase (stepRest st script env).1 true env.leftEnv env.currentTime
          (stepRest st script env).2.2 env.reconnectLeft).2.1 := by
    rw [stepLeft, hsel]
  refine ⟨⟨?_, ?_⟩, ?_⟩
  · rw [hev, loggedTimeoutFor_cons, loggedTimeoutFor_append, loggedTimeoutFor_append,
      hst, hl]
    simp
  · rw [hev, wroteMotionTo_cons, wroteMotionTo_append, wroteMotionTo_append, hst, hw]
    simp
  · intro tl tr hwl hwr
    have h1 : (stepLeft st script env).2.2.1 = some tl := hwl
    have h2 : (stepRight st script env).2.2.1 = some tr := hwr
    have h3 := stepLeft_clock_after_write st script env tl h1
    have h4 := stepRight_write_not_before_clock st script env tr h2
    rw [h3] at h4
    exact h4

/-- Engine state with both channels connected and both awaiting the ACK of
a previously dispatched BOTH-routed command. -/
def c6State : MState :=
  ⟨some ⟨true, true⟩, some ⟨true, true⟩, true, true, false, false, some Arm.both, 0, 0⟩

/-- A BOTH-routed motion script. -/
def c6Script : Script := ⟨some "AB", some (.arr [.dict ["L", "R"]])⟩

/-- LEFT withholds its ACK (the trace runs past the 8 s bound); RIGHT ACKs
at the first poll. -/
def c6EnvSlow : StepEnv :=
  ⟨1000, ⟨[], false, true, false⟩,
   ⟨[⟨false, false, false, 0⟩, ⟨false, false, false, 801⟩], false, true, false⟩,
   ⟨[⟨false, true, false, 0⟩], false, true, false⟩, none, none, false⟩

/-- The same environment except that LEFT also ACKs at the first poll. -/
def c6EnvFast : StepEnv :=
  ⟨1000, ⟨[], false, true, false⟩,
   ⟨[⟨false, true, false, 0⟩], false, true, false⟩,
   ⟨[⟨false, true, false, 0⟩], false, true, false⟩, none, none, false⟩

/-- C6 counterexample: for the same state and the same BOTH-routed command,
with environments agreeing on the RIGHT channel and differing only in the
LEFT channel's inbound trace, the RIGHT write tick moves from 1005 to 1806:
the sequential dispatch loop makes RIGHT's send wait out LEFT's full 8 s
ACK timeout, so RIGHT's send timing IS delayed by LEFT's ACK wait —
refuting the claimed independence (while a timeout warning is indeed logged
and the command is still written to LEFT). -/
theorem right_send_delayed_by_left_timeout :
    c6EnvSlow.currentTime = c6EnvFast.currentTime ∧
    c6EnvSlow.rightEnv = c6EnvFast.rightEnv ∧
    c6EnvSlow.restEnv = c6EnvFast.restEnv ∧
    (runMotionStep c6State c6Script c6EnvFast).rightWriteTime = some 1005 ∧
    (runMotionStep c6State c6Script c6EnvSlow).rightWriteTime = some 1806 ∧
    loggedTimeoutFor (runMotionStep c6State c6Script c6EnvSlow).events .left = true ∧
    wroteMotionTo (runMotionStep c6State c6Script c6EnvSlow).events .left = true := by
  refine ⟨rfl, rfl, rfl, ?_, ?_, ?_, ?_⟩ <;> decide

/-- Witness for the amended C6 theorem at the concrete slow-LEFT scenario:
the timeout is logged, LEFT still gets the command, and the RIGHT write
(tick 1806) indeed comes no earlier than the LEFT write (tick 1801) plus the
settle delay. -/
theorem left_timeout_logged_and_sequenced_witness :
    (loggedTimeoutFor (runMotionStep c6State c6Script c6EnvSlow).events .left = true ∧
     wroteMotionTo (runMotionStep c6State c6Script c6EnvSlow).events .left = true) ∧
    1801 + POST_WRITE_SETTLE ≤ 1806 :=
  ⟨(left_timeout_logged_and_sequenced c6State c6Script c6EnvSlow (by decide) (by decide)
      (by decide) (by decide) (by decide) rfl (by decide) (by decide) rfl).1,
   (left_timeout_logged_and_sequenced c6State c6Script c6EnvSlow (by decide) (by decide)
      (by decide) (by decide) (by decide) rfl (by decide) (by decide) rfl).2
     1801 1806 (by decide) (by decide)⟩

/-! ## C8: failure handling and reconnect rate limiting -/

/-- A `reconnectAttempt` event on channel `ch`. -/
def isReconnectAttempt (ch : Chan) : Ev → Bool
  | .reconnectAttempt c _ => c == ch
  | _ => false

/-- Both channels connected and idle, the previous motion having used both
arms — so the next RIGHT-only motion triggers a rest send to LEFT. -/
def c8RestState : MState :=
  ⟨some ⟨true, true⟩, some ⟨true, true⟩, false, false, false, false, some Arm.both, 0, 0⟩

/-- A RIGHT-only motion script. -/
def c8RightScript : Script := ⟨some "RS", some (.arr [.dict ["R"]])⟩

/-- Environment in which the rest-position write to LEFT raises while the
RIGHT send succeeds. -/
def c8RestFailEnv : StepEnv :=
  ⟨1000, ⟨[], false, false, false⟩, ⟨[], false, true, false⟩,
   ⟨[], false, true, false⟩, none, none, false⟩

/-- A much later step (90 s on), with a LEFT device available for
reconnection, to observe whether the channel is ever reconnected. -/
def c8LaterEnv : StepEnv :=
  ⟨100000, ⟨[], false, true, false⟩, ⟨[], false, true, false⟩,
   ⟨[⟨false, true, false, 0⟩], false, true, false⟩,
   some ⟨true, true⟩, some ⟨true, true⟩, false⟩

/-- C8 counterexample: a write failure during a rest-position send refutes
the claim's universal "closes its serial handle and marks that channel
disconnected". The rest transition of a BOTH→RIGHT step calls the same send
path, which on the write exception closes the handle and logs the error —
but `run_motion` discards the returned `connection_lost`
(`sent, _ = wait_ack_then_send(...)`, lines 235–238), so `ser_left` is
never set to `None`: after the step the LEFT handle is the closed object
`some ⟨false, true⟩`, not `None`, and the channel is never marked
disconnected. Consequently the reconnect gate `if ser_left is None` never
fires: a second step 90 seconds later, with a LEFT device available, makes
no reconnect attempt and leaves the closed handle in place — the channel is
dead for good, with no bounded-rate reconnection. -/
theorem rest_send_failure_never_marks_disconnected :
    Ev.closed .left ∈ (runMotionStep c8RestState c8RightScript c8RestFailEnv).events ∧
    Ev.logSendError .left
      ∈ (runMotionStep c8RestState c8RightScript c8RestFailEnv).events ∧
    (runMotionStep c8RestState c8RightScript c8RestFailEnv).state.serLeft
      = some ⟨false, true⟩ ∧
    ((runMotionStep (runMotionStep c8RestState c8RightScript c8RestFailEnv).state
        c8RightScript c8LaterEnv).events).any (isReconnectAttempt .left) = false ∧
    (runMotionStep (runMotionStep c8RestState c8RightScript c8RestFailEnv).state
        c8RightScript c8LaterEnv).state.serLeft = some ⟨false, true⟩ := by
  decide

/-- C8 (amended): a write or flush failure during a *main motion* send
(modelled for LEFT; RIGHT is the mirrored code) closes the serial handle,
drops it to `None` (the DISCONNECTED state), logs the error, stamps the
reconnect clock, and makes no reconnect attempt in the same pass; for a
disconnected channel a reconnect attempt is made iff at least
`RECONNECT_INTERVAL` (5 s) has passed since `last_reconnect_left`, a failed
attempt re-stamping the clock — so attempts occur at most once per
5-second interval. But a write failure during a *rest-position* send only
closes the handle: the caller discards `connection_lost`, the variable is
never set to `None`, and since the reconnect gate requires a `None` handle,
a channel in that closed-but-not-`None` state is never reconnected. The
failing step always returns a successor state: no transport failure
terminates the dispatch loop. -/
theorem write_failure_reconnect_policy (st : MState) (lenv : SendEnv)
    (time clock : Nat) (reconn : Option SerialHandle)
    (hv : is_serial_valid st.serLeft = true)
    (hshut1 : ∀ s ∈ lenv.steps, s.shutdown = false)
    (hshut2 : lenv.shutdownAfterWait = false)
    (hadeq : ∃ s ∈ lenv.steps, ACK_TIMEOUT < s.elapsed)
    (hbad : lenv.writeOk = false) :
    ((mainLeftPhase st true lenv time clock reconn).1.serLeft = none ∧
     (mainLeftPhase st true lenv time clock reconn).1.lastReconnectLeft = time ∧
     Ev.logSendError .left ∈ (mainLeftPhase st true lenv time clock reconn).2.1 ∧
     Ev.closed .left ∈ (mainLeftPhase st true lenv time clock reconn).2.1 ∧
     (∀ t', Ev.reconnectAttempt .left t'
        ∉ (mainLeftPhase st true lenv time clock reconn).2.1)) ∧
    (∀ st' : MState, st'.serLeft = none →
      (RECONNECT_INTERVAL ≤ time - st'.lastReconnectLeft →
        (mainLeftPhase st' false lenv time clock reconn).2.1
          = [Ev.reconnectAttempt .left time] ∧
        (mainLeftPhase st' false lenv time clock reconn).1.serLeft = reconn ∧
        (reconn = none →
          (mainLeftPhase st' false lenv time clock reconn).1.lastReconnectLeft = time)) ∧
      (time - st'.lastReconnectLeft < RECONNECT_INTERVAL →
        (mainLeftPhase st' false lenv time clock reconn).2.1 = [] ∧
        (mainLeftPhase st' false lenv time clock reconn).1 = st')) ∧
    (∀ (st' : MState) (h : SerialHandle) (renv' : SendEnv) (clock' : Nat),
      st'.serLeft = some h → h.is_open = true →
      (∀ s ∈ renv'.steps, s.shutdown = false) →
      renv'.shutdownAfterWait = false →
      (∃ s ∈ renv'.steps, ACK_TIMEOUT < s.elapsed) →
      renv'.writeOk = false →
      (restPhase st' (some Arm.both) (some Arm.right) renv' clock').1.serLeft
        = some { h with is_open := false }) ∧
    (∀ (st' : MState) (h : SerialHandle) (lenv' : SendEnv) (time' clock' : Nat)
        (reconn' : Option SerialHandle),
      st'.serLeft = some h →
      (mainLeftPhase st' false lenv' time' clock' reconn').2.1 = [] ∧
      (mainLeftPhase st' false lenv' time' clock' reconn').1 = st') := by
  obtain ⟨hsent, hconn, hclosed, hwt⟩ := wait_ack_then_send_fails
    (is_serial_valid st.serRight) st.pendingLeft st.ackLeft st.ackRight true clock lenv
    hshut1 hshut2 hadeq hbad
  refine ⟨?_, ?_, ?_, ?_⟩
  · rw [mainLeftPhase, hv]
    have hsub : time - time = 0 := Nat.sub_self time
    by_cases h1 : (wait_ack_then_send true (is_serial_valid st.serRight) st.pendingLeft
        st.ackLeft st.ackRight true clock lenv).loggedTimeout = true <;>
      simp [hconn, hsent, hwt, hsub, sendEvents, h1, RECONNECT_INTERVAL]
  · intro st' hnone
    constructor
    · intro hge
      rw [mainLeftPhase]
      simp only [Bool.false_eq_true, if_false]
      rw [if_pos ⟨hnone, hge⟩]
      refine ⟨rfl, rfl, fun hr => ?_⟩
      simp [hr]
    · intro hlt
      rw [mainLeftPhase]
      simp only [Bool.false_eq_true, if_false]
      rw [if_neg (fun hc => absurd hc.2 (Nat.not_le.mpr hlt))]
      exact ⟨rfl, rfl⟩
  · intro st' h renv' clock' hser hopen hs1 hs2 hs3 hbad'
    have hv' : is_serial_valid st'.serLeft = true := by
      rw [hser]
      simp [is_serial_valid, writable_attr_truthy, hopen]
    obtain ⟨-, -, hch, -⟩ := wait_ack_then_send_fails (is_serial_valid st'.serRight)
      st'.pendingLeft st'.ackLeft st'.ackRight false clock' renv' hs1 hs2 hs3 hbad'
    rw [restPhase, if_pos ⟨rfl, Or.inl rfl⟩]
    show (if (wait_ack_then_send (is_serial_valid st'.serLeft)
          (is_serial_valid st'.serRight) st'.pendingLeft st'.ackLeft st'.ackRight
          false clock' renv').closedHandle = true
        then closeHandle st'.serLeft else st'.serLeft)
      = some { h with is_open := false }
    rw [hv', hch, if_pos rfl, hser]
    rfl
  · intro st' h lenv' time' clock' reconn' hser
    rw [mainLeftPhase]
    simp only [Bool.false_eq_true, if_false]
    rw [if_neg ?_]
    · exact ⟨rfl, rfl⟩
    · intro hc
      have hn : st'.serLeft = none := hc.1
      rw [hser] at hn
      exact Option.noConfusion hn

/-- A connected LEFT channel awaiting nothing, about to suffer a write
failure. -/
def c8State : MState :=
  ⟨some ⟨true, true⟩, some ⟨true, true⟩, false, false, false, false, none, 0, 0⟩

/-- A disconnected-LEFT state whose last reconnect attempt was at tick 0. -/
def c8StateDown : MState :=
  ⟨none, some ⟨true, true⟩, false, false, false, false, none, 0, 0⟩

/-- An environment whose write raises (`SerialException`/`OSError`). -/
def c8Env : SendEnv := ⟨[⟨false, false, false, 801⟩], false, false, false⟩

/-- A LEFT channel left with the closed-but-not-`None` handle a failed rest
send leaves behind. -/
def c8ClosedState : MState :=
  ⟨some ⟨false, true⟩, some ⟨true, true⟩, false, false, false, false, some Arm.right, 0, 0⟩

/-- Witness for the amended C8 theorem: at tick 600 a failing main-send
write disconnects LEFT; a disconnected LEFT whose last attempt was at tick
0 is retried (600 − 0 ≥ 500 ticks = 5 s); a failing rest-send write leaves
the LEFT handle closed but non-`None`; and a closed-but-non-`None` LEFT
handle triggers no reconnect attempt even 100 s later with a device
available. -/
theorem write_failure_reconnect_policy_witness :
    (mainLeftPhase c8State true c8Env 600 600 none).1.serLeft = none ∧
    (mainLeftPhase c8StateDown false c8Env 600 600 none).2.1
      = [Ev.reconnectAttempt .left 600] ∧
    (restPhase c8RestState (some Arm.both) (some Arm.right) c8Env 1000).1.serLeft
      = some ⟨false, true⟩ ∧
    (mainLeftPhase c8ClosedState false c8Env 100000 100000 (some ⟨true, true⟩)).2.1
      = [] :=
  ⟨(write_failure_reconnect_policy c8State c8Env 600 600 none rfl (by decide) rfl
      (by decide) rfl).1.1,
   (((write_failure_reconnect_policy c8State c8Env 600 600 none rfl (by decide) rfl
      (by decide) rfl).2.1 c8StateDown rfl).1 (by decide)).1,
   (write_failure_reconnect_policy c8State c8Env 600 600 none rfl (by decide) rfl
      (by decide) rfl).2.2.1 c8RestState ⟨true, true⟩ c8Env 1000 rfl rfl (by decide)
      rfl (by decide) rfl,
   ((write_failure_reconnect_policy c8State c8Env 600 600 none rfl (by decide) rfl
      (by decide) rfl).2.2.2 c8ClosedState ⟨false, true⟩ c8Env 100000 100000
      (some ⟨true, true⟩) rfl).1⟩

/-! ## C5: shutdown observation across the stage loops -/

/-- `motion_new_signal.wait(timeout=0.1)`, the bounded queue wait of
`run_motion`, in ticks. -/
def MOTION_WAIT_TIMEOUT : Nat := 10

/-- `run_motion`'s shutdown epilogue (lines 300–307): close each still-valid
handle. -/
def closeEvents (st : MState) : List Ev :=
  (if is_serial_valid st.serLeft then [Ev.closed .left] else [])
    ++ (if is_serial_valid st.serRight then [Ev.closed .right] else [])

/-- One iteration's environment for `run_motion`'s outer loop: the shutdown
flag at the `while` head, the result of the bounded signal wait, the head of
the motion queue (if any), the shutdown re-check of line 204, and the step
environment for the processed item. Inbound drains between items are
absorbed into the per-send traces. -/
structure LoopIterEnv where
  shutdown : Bool
  signalSet : Bool
  queueHead : Option Script
  shutdownAtPop : Bool
  stepEnv : StepEnv
deriving DecidableEq, Repr

/-- How a finite observation of the outer loop ended. -/
inductive LoopExit where
  | shutdownObserved
  | outOfTrace
deriving DecidableEq, Repr

/-- `run_motion`'s outer loop (lines 194–307) over a finite trace of
iteration environments: each pass re-checks the shutdown flag first and, on
observing it, exits and closes both channels; otherwise it waits (bounded)
for the wake signal, pops and processes at most one script, and loops. -/
def run_motion_loop (st : MState) : List LoopIterEnv → MState × List Ev × LoopExit
  | [] => (st, [], .outOfTrace)
  | e :: rest =>
    if e.shutdown then (st, closeEvents st, .shutdownObserved)
    else if !e.signalSet then run_motion_loop st rest
    else
      match e.queueHead with
      | none => run_motion_loop st rest
      | some script =>
        if e.shutdownAtPop then run_motion_loop st rest
        else
          let out := runMotionStep st script e.stepEnv
          let r := run_motion_loop out.state rest
          (r.1, out.events ++ r.2.1, r.2.2)

/-- The suspension point of `run_database`'s outer loop (`db_io.py` line
41): `file_io.asl_new_signal.wait()` — with NO timeout argument — inside
`while True`. The stage proceeds past the wait iff the wake signal is set;
the shutdown flag is never consulted (indeed `run_database` reads no such
flag, and `FileIOManager.__init__` does not even create the `shutdown`
attribute referenced by `run_motion` and `main`). `run_ai` and
`run_emotion` have the same shape. -/
def run_database_proceeds (_shutdown aslNewSignal : Bool) : Bool :=
  aslNewSignal

/-- C5 counterexample: with the shutdown flag set but the ASL wake signal
clear, the database stage loop stays blocked in its untimed wait — it does
not observe shutdown within any bound, refuting "every stage loop's wait
uses a bounded timeout and re-checks the shared shutdown flag". -/
theorem db_stage_blocked_despite_shutdown :
    run_database_proceeds true false = false := rfl

/-- C5 (amended): only the motion dispatch loop follows the claimed
discipline: it re-checks the shutdown flag at the top of every iteration
(its queue wait being bounded by 0.1 s), and on observing shutdown exits at
once, closing every still-open serial channel; the database (and AI and
emotion) stage loops instead block on their wake events with no timeout and
never consult the shutdown flag: whether the database stage proceeds is a
function of the wake signal alone, independent of the shutdown flag. -/
theorem motion_loop_exits_on_shutdown_db_loop_ignores_it
    (st : MState) (e : LoopIterEnv) (rest : List LoopIterEnv)
    (h : e.shutdown = true) :
    run_motion_loop st (e :: rest) = (st, closeEvents st, LoopExit.shutdownObserved) ∧
    (∀ sh sh' sig : Bool, run_database_proceeds sh sig = run_database_proceeds sh' sig) := by
  constructor
  · rw [run_motion_loop, if_pos h]
  · intro sh sh' sig
    rfl

/-- Witness for the amended C5 theorem: a concrete iteration whose shutdown
flag is set makes the loop exit immediately, closing the open channels. -/
theorem motion_loop_exits_on_shutdown_witness :
    run_motion_loop c8State
        [⟨true, false, none, false,
          ⟨0, ⟨[], false, true, false⟩, ⟨[], false, true, false⟩,
            ⟨[], false, true, false⟩, none, none, false⟩⟩]
      = (c8State, closeEvents c8State, LoopExit.shutdownObserved) :=
  (motion_loop_exits_on_shutdown_db_loop_ignores_it c8State
    ⟨true, false, none, false,
      ⟨0, ⟨[], false, true, false⟩, ⟨[], false, true, false⟩,
        ⟨[], false, true, false⟩, none, none, false⟩⟩ [] rfl).1

end ASLRobot
